import Mathlib

/-!
Verification development for the Flux language toolchain
(src/lexer.rs, src/parser.rs, src/codegen.rs, src/vm.rs).

The Rust source is shallowly embedded as executable Lean definitions:

* Rust `i64` is modelled as unbounded `Int` (the release build wraps on
  `+ - *` overflow; none of the properties below exercise that); integer
  division and remainder use `Int.tdiv` / `Int.tmod`, which truncate
  toward zero exactly like Rust's `/` and `%` on `i64`.  A Rust panic is
  modelled as `none`: `i64` division and remainder panic on a zero
  divisor and on the overflow case `i64::MIN` with divisor `-1`, in
  every build profile.
* Rust `f64` is modelled by `F64`, an exact pair numerator/denominator.
  This is exact for the decimal literals, integer promotions, additions,
  multiplications and integral powers exercised here; IEEE rounding,
  infinities and NaN are outside the scope of every property proved in
  this file.
* `HashMap<String, V>` is modelled as an association list (function table)
  or as a total function with default `Value.Null` (the global store is
  only ever read through `get(..).unwrap_or(Null)`).
* Standard output is modelled as a `String` field accumulating exactly the
  bytes printed; standard input as a list of pending lines.
-/

namespace Flux

/-- Exact-rational stand-in for Rust `f64` (see the header note). -/
structure F64 where
  num : Int
  den : Int
  deriving DecidableEq, Repr

/-- Conversion `i64 as f64` (exact for the magnitudes exercised here). -/
def F64.ofInt (i : Int) : F64 := { num := i, den := 1 }

/-- `f64` addition, abstracted as exact rational addition. -/
def F64.add (a b : F64) : F64 := { num := a.num * b.den + b.num * a.den, den := a.den * b.den }

/-- `f64` subtraction. -/
def F64.sub (a b : F64) : F64 := { num := a.num * b.den - b.num * a.den, den := a.den * b.den }

/-- `f64` multiplication. -/
def F64.mul (a b : F64) : F64 := { num := a.num * b.num, den := a.den * b.den }

/-- `f64` division (division by zero yields a junk value with a zero
denominator, standing in for the IEEE infinity; no property below
exercises it). -/
def F64.div (a b : F64) : F64 := { num := a.num * b.den, den := a.den * b.num }

/-- `f64` equality (`PartialEq`), by cross-multiplication; correct for the
positive denominators produced by this development. -/
def F64.beq (a b : F64) : Bool := a.num * b.den == b.num * a.den

/-- `f64` less-than, by cross-multiplication. -/
def F64.ltB (a b : F64) : Bool := decide (a.num * b.den < b.num * a.den)

/-- `f64` less-or-equal, by cross-multiplication. -/
def F64.leB (a b : F64) : Bool := decide (a.num * b.den ≤ b.num * a.den)

/-- Iterated product, used to model `f64::powf` on integral exponents. -/
def F64.npow (a : F64) : Nat → F64
  | 0 => { num := 1, den := 1 }
  | n + 1 => F64.mul a (F64.npow a n)

/-- Model of `f64::powf`: exact on integral exponents (the only exponents
any property below evaluates); on a non-integral exponent it returns a
junk value, standing in for the irrational IEEE result. -/
def F64.powf (a b : F64) : F64 :=
  if b.den ≠ 0 ∧ b.num.tmod b.den = 0 then
    let e := b.num.tdiv b.den
    if 0 ≤ e then F64.npow a e.toNat
    else { num := (F64.npow a (-e).toNat).den, den := (F64.npow a (-e).toNat).num }
  else { num := 0, den := 1 }

/-- Euclid's algorithm with an explicit structural counter (the counter
only makes the recursion structural; `b + 1` steps always suffice since
the second argument strictly decreases). -/
def gcdF : Nat → Nat → Nat → Nat
  | 0, a, _ => a
  | fuel + 1, a, b => if b = 0 then a else gcdF fuel b (a % b)

/-- Count and strip the factors `p` of a number (structural counter as in
`gcdF`; `d` steps always suffice). -/
def stripFactor (p : Nat) : Nat → Nat → Nat × Nat
  | 0, d => (0, d)
  | fuel + 1, d =>
    if 1 < p ∧ 0 < d ∧ d % p = 0 then
      let r := stripFactor p fuel (d / p)
      (r.1 + 1, r.2)
    else (0, d)

/-- The decimal rendering of an `F64`, matching `Display` for `f64`:
an integral value prints with no point (`2.0` prints `2`), otherwise the
exact terminating decimal expansion prints with no trailing zeros
(`2.5`, `-0.125`).  Every genuine `f64` is a dyadic rational, so its
exact value has a terminating expansion and this rendering is Rust's
shortest round-trip output; a reduced denominator that is not of the
form 2^a * 5^b can only arise where the exact-rational abstraction has
already departed from IEEE rounding (see the header note), and prints as
an exact fraction.  A zero denominator stands for the IEEE specials and
prints as Rust prints them. -/
def F64.display (f : F64) : String :=
  if f.den = 0 then
    if 0 < f.num then "inf" else if f.num < 0 then "-inf" else "NaN"
  else
    let sgn := if f.num * f.den < 0 then "-" else ""
    let n0 := f.num.natAbs
    let d0 := f.den.natAbs
    let g := gcdF (d0 + 1) n0 d0
    let n := n0 / g
    let d := d0 / g
    let twos := stripFactor 2 d d
    let fives := stripFactor 5 twos.2 twos.2
    if fives.2 = 1 then
      let m := max twos.1 fives.1
      let scaled := n * 2 ^ (m - twos.1) * 5 ^ (m - fives.1)
      let intPart := scaled / 10 ^ m
      let frac := scaled % 10 ^ m
      let digits := List.replicate (m - (toString frac).length) '0' ++ (toString frac).toList
      let trimmed := (digits.reverse.dropWhile (fun c => c == '0')).reverse
      if trimmed.isEmpty then sgn ++ toString intPart
      else sgn ++ toString intPart ++ "." ++ String.mk trimmed
    else
      toString f.num ++ "/" ++ toString f.den

/-- `Token` from src/lexer.rs, one constructor per Rust variant. -/
inductive Tok where
  | Constant | Mutable | Assign | Yield | Course | Purpose
  | When | Then | Persist | Differently | Otherwise
  | Iterate | Across | To
  | And | Or | Not | Void
  | StringType | NumberType | FloatType | BooleanType
  | Int (n : Int) | Float (f : F64) | Str (s : String) | Ident (s : String)
  | True | False
  | Plus | Minus | Star | Slash | Percent | Power
  | EqEq | BangEq | Lt | Gt | LtEq | GtEq | Eq
  | LParen | RParen | LBrace | RBrace | LBracket | RBracket | Semicolon | Comma
  | EOF
  deriving DecidableEq, Repr

/-- `Expr` from src/ast.rs. -/
inductive Expr where
  | Int (n : Int)
  | Float (f : F64)
  | Str (s : String)
  | Bool (b : Bool)
  | Ident (n : String)
  | List (es : List Expr)
  | Binary (left : Expr) (op : Tok) (right : Expr)
  | Unary (op : Tok) (e : Expr)
  | Call (callee : String) (args : List Expr)
  | Index (target : Expr) (index : Expr) (val : Option Expr)

/-- `Stmt` from src/ast.rs (`ElseIf` is the pair `(Expr, Vec<Stmt>)`). -/
inductive Stmt where
  | Const (name : String) (value : Expr)
  | Mutable (name : String) (init : Option Expr)
  | Assign (name : String) (value : Expr)
  | Expr (e : Expr)
  | Return (e : Option Expr)
  | Course (name : String) (params : List String) (body : List Stmt)
  | Purpose (name : String) (params : List String) (body : List Stmt)
  | Persist (cond : Expr) (body : List Stmt)
  | When (cond : Expr) (thenB : List Stmt) (elifs : List (Expr × List Stmt))
      (otherwise : List Stmt)
  | Iterate (var : String) (iterable : Expr) (body : List Stmt)
  | Block (body : List Stmt)

/-- `IR` from src/codegen.rs (jump targets are absolute offsets). -/
inductive IR where
  | PushI (n : Int) | PushF (f : F64) | PushS (s : String) | PushB (b : Bool) | PushNull
  | Load (n : String) | Store (n : String)
  | Add | Sub | Mul | Div | Mod | Power
  | Eq | Neq | Lt | Gt | Le | Ge | And | Or | Not
  | Jump (t : Nat) | JumpFalse (t : Nat)
  | Call (name : String) (argc : Nat) | Return
  | MakeList (size : Nat) | GetIndex | SetIndex | ListLen
  deriving DecidableEq, Repr

/-- The code generator state: the flat instruction array plus the function
table (`HashMap` insertion modelled as prepend; lookups take the newest
binding, matching `HashMap::insert` overwrite semantics). -/
structure Codegen where
  code : List IR
  functions : List (String × Nat)

/-- `Codegen::emit`: append one instruction, return its offset. -/
def Codegen.emit (c : Codegen) (op : IR) : Codegen × Nat :=
  ({ c with code := c.code ++ [op] }, c.code.length)

/-- The in-place overwrite performed by `Codegen::patch` on one
instruction: a jump or jump-if-false gets the new target, anything else is
left unchanged. -/
def patchOne (target : Nat) : IR → IR
  | .Jump _ => .Jump target
  | .JumpFalse _ => .JumpFalse target
  | op => op

/-- Overwrite the instruction at `pos` using `patchOne`. -/
def listPatch : List IR → Nat → Nat → List IR
  | [], _, _ => []
  | op :: rest, 0, target => patchOne target op :: rest
  | op :: rest, n + 1, target => op :: listPatch rest n target

/-- `Codegen::patch`. -/
def Codegen.patch (c : Codegen) (pos target : Nat) : Codegen :=
  { c with code := listPatch c.code pos target }

/-- The operator match inside `Codegen::expr` for `Expr::Binary`: note
that the range keyword `to` lowers to `Le` and unknown operators emit
nothing. -/
def cgBinOp (c : Codegen) : Tok → Codegen
  | .Plus => (c.emit .Add).1
  | .Minus => (c.emit .Sub).1
  | .Star => (c.emit .Mul).1
  | .Slash => (c.emit .Div).1
  | .Percent => (c.emit .Mod).1
  | .Power => (c.emit .Power).1
  | .EqEq => (c.emit .Eq).1
  | .BangEq => (c.emit .Neq).1
  | .Lt => (c.emit .Lt).1
  | .Gt => (c.emit .Gt).1
  | .LtEq => (c.emit .Le).1
  | .GtEq => (c.emit .Ge).1
  | .And => (c.emit .And).1
  | .Or => (c.emit .Or).1
  | .To => (c.emit .Le).1
  | _ => c

mutual

/-- `Codegen::expr` from src/codegen.rs. -/
def cgExpr : Codegen → Expr → Codegen
  | c, .Int n => (c.emit (.PushI n)).1
  | c, .Float f => (c.emit (.PushF f)).1
  | c, .Str s => (c.emit (.PushS s)).1
  | c, .Bool b => (c.emit (.PushB b)).1
  | c, .List es =>
    let c := cgExprList c es
    (c.emit (.MakeList es.length)).1
  | c, .Ident n => (c.emit (.Load n)).1
  | c, .Call callee args =>
    let c := cgExprList c args
    (c.emit (.Call callee args.length)).1
  | c, .Index t i v =>
    let c := cgExpr c t
    let c := cgExpr c i
    match v with
    | some av => ((cgExpr c av).emit .SetIndex).1
    | none => (c.emit .GetIndex).1
  | c, .Binary l op r =>
    let c := cgExpr c l
    let c := cgExpr c r
    cgBinOp c op
  | c, .Unary op e =>
    match op with
    | .Minus =>
      let c := cgExpr c e
      let c := (c.emit (.PushI (-1))).1
      (c.emit .Mul).1
    | .Not => ((cgExpr c e).emit .Not).1
    | _ => c

/-- Left-to-right emission of a list of sub-expressions. -/
def cgExprList : Codegen → List Expr → Codegen
  | c, [] => c
  | c, e :: es => cgExprList (cgExpr c e) es

end

mutual

/-- `Codegen::stmt` from src/codegen.rs.  In the `When` arm the source
pushes every else-if jump-if-false offset into `cond_jumps` but only ever
patches `cond_jumps[0]`; the discarded binding below mirrors the
positions that are recorded and never patched. -/
def cgStmt : Codegen → Stmt → Codegen
  | c, .Const name value => ((cgExpr c value).emit (.Store name)).1
  | c, .Mutable name (some value) => ((cgExpr c value).emit (.Store name)).1
  | c, .Mutable name none =>
    let c := (c.emit .PushNull).1
    (c.emit (.Store name)).1
  | c, .Assign name value =>
    match value with
    | .Index (.Ident varName) index aval =>
      let c := (c.emit (.Load varName)).1
      let c := cgExpr c index
      let c := match aval with
        | some v => cgExpr c v
        | none => (c.emit .PushNull).1
      let c := (c.emit .SetIndex).1
      (c.emit (.Store varName)).1
    | _ => ((cgExpr c value).emit (.Store name)).1
  | c, .Expr e => cgExpr c e
  | c, .Return (some e) => ((cgExpr c e).emit .Return).1
  | c, .Return none =>
    let c := (c.emit .PushNull).1
    (c.emit .Return).1
  | c, .Persist cond body =>
    let start := c.code.length
    let c := cgExpr c cond
    let (c, jf) := c.emit (.JumpFalse 0)
    let c := cgStmtList c body
    let c := (c.emit (.Jump start)).1
    c.patch jf c.code.length
  | c, .When cond thenB elifs otherwise =>
    let c := cgExpr c cond
    let (c, cj0) := c.emit (.JumpFalse 0)
    let c := cgStmtList c thenB
    let (c, xj0) := c.emit (.Jump 0)
    let c := c.patch cj0 c.code.length
    let (c, exitJumps) := cgElifs c elifs [xj0]
    let c := cgStmtList c otherwise
    let endPos := c.code.length
    exitJumps.foldl (fun c j => c.patch j endPos) c
  | c, .Iterate v iterable body =>
    match iterable with
    | .Binary lo .To hi =>
      let c := cgExpr c lo
      let c := (c.emit (.Store v)).1
      let start := c.code.length
      let c := (c.emit (.Load v)).1
      let c := cgExpr c hi
      let c := (c.emit .Le).1
      let (c, jf) := c.emit (.JumpFalse 0)
      let c := cgStmtList c body
      let c := (c.emit (.Load v)).1
      let c := (c.emit (.PushI 1)).1
      let c := (c.emit .Add).1
      let c := (c.emit (.Store v)).1
      let c := (c.emit (.Jump start)).1
      c.patch jf c.code.length
    | _ =>
      let c := cgExpr c iterable
      let c := (c.emit (.Store "_iter_list")).1
      let c := (c.emit (.PushI 0)).1
      let c := (c.emit (.Store "_iter_index")).1
      let start := c.code.length
      let c := (c.emit (.Load "_iter_index")).1
      let c := (c.emit (.Load "_iter_list")).1
      let c := (c.emit .ListLen).1
      let c := (c.emit .Lt).1
      let (c, jf) := c.emit (.JumpFalse 0)
      let c := (c.emit (.Load "_iter_list")).1
      let c := (c.emit (.Load "_iter_index")).1
      let c := (c.emit .GetIndex).1
      let c := (c.emit (.Store v)).1
      let c := cgStmtList c body
      let c := (c.emit (.Load "_iter_index")).1
      let c := (c.emit (.PushI 1)).1
      let c := (c.emit .Add).1
      let c := (c.emit (.Store "_iter_index")).1
      let c := (c.emit (.Jump start)).1
      c.patch jf c.code.length
  | c, .Course _ _ _ => c
  | c, .Purpose _ _ _ => c
  | c, .Block body => cgStmtList c body

/-- Sequential lowering of a statement list. -/
def cgStmtList : Codegen → List Stmt → Codegen
  | c, [] => c
  | c, s :: rest => cgStmtList (cgStmt c s) rest

/-- The else-if loop of the `When` arm, accumulating the exit-jump
offsets; the jump-if-false offset bound as `_condJump` is what the source
pushes into `cond_jumps` and never patches. -/
def cgElifs : Codegen → List (Expr × List Stmt) → List Nat → Codegen × List Nat
  | c, [], exits => (c, exits)
  | c, (cond, body) :: rest, exits =>
    let c := cgExpr c cond
    let (c, _condJump) := c.emit (.JumpFalse 0)
    let c := cgStmtList c body
    let (c, xj) := c.emit (.Jump 0)
    cgElifs c rest (exits ++ [xj])

end

/-- Phase-one body of `Codegen::compile`: register and compile one
function or procedure definition (parameters stored in reverse order,
body, then the unconditional `PushNull`/`Return` epilogue). -/
def cgFnPass (c : Codegen) (s : Stmt) : Codegen :=
  match s with
  | .Course name params body | .Purpose name params body =>
    let entry := c.code.length
    let c := { c with functions := (name, entry) :: c.functions }
    let c := params.reverse.foldl (fun c p => (c.emit (.Store p)).1) c
    let c := cgStmtList c body
    let c := (c.emit .PushNull).1
    (c.emit .Return).1
  | _ => c

/-- Phase-two body of `Codegen::compile`: compile one non-function
top-level statement (function definitions were compiled in phase one; the
source's catch-all arm silently skips a top-level `Return`). -/
def cgTopPass (c : Codegen) (s : Stmt) : Codegen :=
  match s with
  | .Const _ _ | .Mutable _ _ | .Assign _ _ | .Expr _ | .Iterate _ _ _
  | .Persist _ _ | .When _ _ _ _ | .Block _ => cgStmt c s
  | .Course _ _ _ | .Purpose _ _ _ => c
  | .Return _ => c

/-- `Codegen::compile`: placeholder jump at offset 0, all function bodies,
patch the jump to the first post-function offset, all top-level
statements, trailing `PushNull`/`Return`. -/
def compile (stmts : List Stmt) : Codegen :=
  let c : Codegen := { code := [], functions := [] }
  let (c, mainJumpPos) := c.emit (.Jump 0)
  let c := stmts.foldl cgFnPass c
  let mainEntry := c.code.length
  let c := c.patch mainJumpPos mainEntry
  let c := stmts.foldl cgTopPass c
  let c := (c.emit .PushNull).1
  (c.emit .Return).1

/-- `Value` from src/vm.rs. -/
inductive Value where
  | Int (n : Int)
  | Float (f : F64)
  | Str (s : String)
  | Bool (b : Bool)
  | Null
  | List (vs : List Value)

/-- Alias for the host boolean type, usable inside the `Value` namespace
where the bare name would resolve to the `Value.Bool` constructor. -/
abbrev HostBool := Bool

/-- Alias for the host integer type (see `HostBool`). -/
abbrev HostInt := Int

/-- Alias for lists of runtime values (see `HostBool`). -/
abbrev ValueList := List Value

mutual

/-- The derived `PartialEq` on `Value` (structural; cross-variant
comparisons are `false`). -/
def Value.beq : Value → Value → HostBool
  | .Int a, .Int b => a == b
  | .Float a, .Float b => F64.beq a b
  | .Str a, .Str b => a == b
  | .Bool a, .Bool b => a == b
  | .Null, .Null => true
  | .List xs, .List ys => Value.beqList xs ys
  | _, _ => false

/-- Element-wise `PartialEq` on `Vec<Value>`. -/
def Value.beqList : ValueList → ValueList → HostBool
  | [], [] => true
  | x :: xs, y :: ys => Value.beq x y && Value.beqList xs ys
  | _, _ => false

end

mutual

/-- `impl Display for Value` from src/vm.rs: integers, floats and
booleans in decimal (see `F64.display` for the float rendering), strings
raw, null as the text `null`, lists bracketed and comma-separated,
recursively. -/
def Value.display : Value → String
  | .Int n => toString n
  | .Float f => F64.display f
  | .Str s => s
  | .Bool b => if b then "true" else "false"
  | .Null => "null"
  | .List elements => "[" ++ Value.displayList elements ++ "]"

/-- The element loop of the list arm of `Display` (`", "` before every
element except the first). -/
def Value.displayList : ValueList → String
  | [] => ""
  | [v] => Value.display v
  | v :: rest => Value.display v ++ ", " ++ Value.displayList rest

end

/-- `Value::truthy`: everything is truthy except `Bool(false)` and
`Null`. -/
def Value.truthy : Value → HostBool
  | .Bool false => false
  | .Null => false
  | _ => true

/-- `Value::as_f64`: numeric conversion, non-numeric values become 0.0. -/
def Value.as_f64 : Value → F64
  | .Int i => F64.ofInt i
  | .Float f => f
  | _ => { num := 0, den := 1 }

/-- `Value::as_int`: floats truncate toward zero (`f64 as i64`),
non-numeric values become 0. -/
def Value.as_int : Value → HostInt
  | .Int i => i
  | .Float f => f.num.tdiv f.den
  | _ => 0

/-- The cast `i64 as usize`: two's-complement reinterpretation, i.e. the
value modulo 2^64 (so a negative index becomes a huge unsigned one). -/
def usizeOfInt (i : Int) : Nat := (i % (2 ^ 64 : Int)).toNat

/-- `bin_arith` from src/vm.rs: integer/integer uses the integer closure,
any float operand promotes to the float closure, anything else yields
null.  The integer closure is `Option`-valued so that a host panic
(division or remainder by zero) can be modelled as `none`. -/
def bin_arith (iop : Int → Int → Option Int) (fop : F64 → F64 → F64) :
    Value → Value → Option Value
  | .Int a, .Int b => (iop a b).map .Int
  | .Float a, .Float b => some (.Float (fop a b))
  | .Int a, .Float b => some (.Float (fop (F64.ofInt a) b))
  | .Float a, .Int b => some (.Float (fop a (F64.ofInt b)))
  | _, _ => some .Null

/-- `impl Add for Value`. -/
def valueAdd : Value → Value → Option Value :=
  bin_arith (fun a b => some (a + b)) F64.add

/-- `impl Sub for Value`. -/
def valueSub : Value → Value → Option Value :=
  bin_arith (fun a b => some (a - b)) F64.sub

/-- `impl Mul for Value`. -/
def valueMul : Value → Value → Option Value :=
  bin_arith (fun a b => some (a * b)) F64.mul

/-- `impl Div for Value`; `none` models the `i64` division panic, which
fires (unconditionally, in every build profile) on a zero divisor and on
the single overflow case `i64::MIN / -1`. -/
def valueDiv : Value → Value → Option Value :=
  bin_arith
    (fun a b =>
      if b = 0 ∨ (a = -(2 ^ 63) ∧ b = -1) then none else some (a.tdiv b))
    F64.div

/-- The `IR::Mod` arm of `VM::run`: integer remainder when both operands
are integers, null otherwise.  `none` models the `i64` remainder panic,
which fires (unconditionally, in every build profile) on a zero divisor
and on the overflow-checked case `i64::MIN % -1`. -/
def vmMod : Value → Value → Option Value
  | .Int a, .Int b =>
    if b = 0 ∨ (a = -(2 ^ 63) ∧ b = -1) then none else some (.Int (a.tmod b))
  | _, _ => some .Null

/-- The `IR::Power` arm of `VM::run`: both operands converted with
`as_f64`, result always a float. -/
def vmPow (a b : Value) : Value := .Float (F64.powf a.as_f64 b.as_f64)

/-- The VM state: operand stack, global store (total function with
default `Null`, observationally equal to `HashMap` +
`get(..).unwrap_or(Null)`), call stack of return offsets, and the modelled
standard output / standard input. -/
structure VMState where
  stack : List Value
  globals : String → Value
  callStack : List Nat
  out : String
  input : List String

/-- `VM::pop`: popping an empty stack yields `Null`. -/
def vmPop : List Value → Value × List Value
  | [] => (.Null, [])
  | v :: rest => (v, rest)

/-- The pop loop of `VM::pop_n`, in pop order (top of stack first). -/
def vmPopNAux : Nat → List Value → List Value × List Value
  | 0, s => ([], s)
  | n + 1, s =>
    let (v, s1) := vmPop s
    let (vs, s2) := vmPopNAux n s1
    (v :: vs, s2)

/-- `VM::pop_n`: pop `n` values then reverse them back into push order. -/
def vmPopN (n : Nat) (s : List Value) : List Value × List Value :=
  ((vmPopNAux n s).1.reverse, (vmPopNAux n s).2)

/-- `HashMap::insert` on the global store. -/
def envSet (g : String → Value) (n : String) (v : Value) : String → Value :=
  fun m => if m = n then v else g m

/-- The state of `VM::new` (plus empty modelled output/input). -/
def initState : VMState :=
  { stack := [], globals := fun _ => .Null, callStack := [], out := "", input := [] }

/-- Outcome of executing one instruction: a host panic, a halt (return
with an empty call stack), or the next instruction pointer and state. -/
inductive StepRes where
  | panic
  | halt (st : VMState)
  | next (ip : Nat) (st : VMState)

/-- One iteration of the dispatch loop of `VM::run` (the instruction at
`ip`); jump instructions return their target directly instead of
`ip + 1`. -/
def step (functions : List (String × Nat)) (ip : Nat) (st : VMState) : IR → StepRes
  | .PushI n => .next (ip + 1) { st with stack := .Int n :: st.stack }
  | .PushF f => .next (ip + 1) { st with stack := .Float f :: st.stack }
  | .PushS s => .next (ip + 1) { st with stack := .Str s :: st.stack }
  | .PushB b => .next (ip + 1) { st with stack := .Bool b :: st.stack }
  | .PushNull => .next (ip + 1) { st with stack := .Null :: st.stack }
  | .Load name => .next (ip + 1) { st with stack := st.globals name :: st.stack }
  | .Store name =>
    .next (ip + 1)
      { st with
        stack := (vmPop st.stack).2
        globals := envSet st.globals name (vmPop st.stack).1 }
  | .Add =>
    match valueAdd (vmPop (vmPop st.stack).2).1 (vmPop st.stack).1 with
    | none => .panic
    | some v => .next (ip + 1) { st with stack := v :: (vmPop (vmPop st.stack).2).2 }
  | .Sub =>
    match valueSub (vmPop (vmPop st.stack).2).1 (vmPop st.stack).1 with
    | none => .panic
    | some v => .next (ip + 1) { st with stack := v :: (vmPop (vmPop st.stack).2).2 }
  | .Mul =>
    match valueMul (vmPop (vmPop st.stack).2).1 (vmPop st.stack).1 with
    | none => .panic
    | some v => .next (ip + 1) { st with stack := v :: (vmPop (vmPop st.stack).2).2 }
  | .Div =>
    match valueDiv (vmPop (vmPop st.stack).2).1 (vmPop st.stack).1 with
    | none => .panic
    | some v => .next (ip + 1) { st with stack := v :: (vmPop (vmPop st.stack).2).2 }
  | .Mod =>
    match vmMod (vmPop (vmPop st.stack).2).1 (vmPop st.stack).1 with
    | none => .panic
    | some v => .next (ip + 1) { st with stack := v :: (vmPop (vmPop st.stack).2).2 }
  | .Power =>
    .next (ip + 1) { st with stack := (
      vmPow (vmPop (vmPop st.stack).2).1 (vmPop st.stack).1 :: (vmPop (vmPop st.stack).2).2) }
  | .Eq =>
    .next (ip + 1) { st with stack := (
      .Bool (Value.beq (vmPop (vmPop st.stack).2).1 (vmPop st.stack).1) ::
        (vmPop (vmPop st.stack).2).2) }
  | .Neq =>
    .next (ip + 1) { st with stack := (
      .Bool (!Value.beq (vmPop (vmPop st.stack).2).1 (vmPop st.stack).1) ::
        (vmPop (vmPop st.stack).2).2) }
  | .Lt =>
    .next (ip + 1) { st with stack := (
      .Bool (F64.ltB (vmPop (vmPop st.stack).2).1.as_f64 (vmPop st.stack).1.as_f64) ::
        (vmPop (vmPop st.stack).2).2) }
  | .Gt =>
    .next (ip + 1) { st with stack := (
      .Bool (F64.ltB (vmPop st.stack).1.as_f64 (vmPop (vmPop st.stack).2).1.as_f64) ::
        (vmPop (vmPop st.stack).2).2) }
  | .Le =>
    .next (ip + 1) { st with stack := (
      .Bool (F64.leB (vmPop (vmPop st.stack).2).1.as_f64 (vmPop st.stack).1.as_f64) ::
        (vmPop (vmPop st.stack).2).2) }
  | .Ge =>
    .next (ip + 1) { st with stack := (
      .Bool (F64.leB (vmPop st.stack).1.as_f64 (vmPop (vmPop st.stack).2).1.as_f64) ::
        (vmPop (vmPop st.stack).2).2) }
  | .And =>
    .next (ip + 1) { st with stack := (
      .Bool ((vmPop (vmPop st.stack).2).1.truthy && (vmPop st.stack).1.truthy) ::
        (vmPop (vmPop st.stack).2).2) }
  | .Or =>
    .next (ip + 1) { st with stack := (
      .Bool ((vmPop (vmPop st.stack).2).1.truthy || (vmPop st.stack).1.truthy) ::
        (vmPop (vmPop st.stack).2).2) }
  | .Not =>
    .next (ip + 1) { st with stack := .Bool (!(vmPop st.stack).1.truthy) :: (vmPop st.stack).2 }
  | .Jump t => .next t st
  | .JumpFalse t =>
    if (vmPop st.stack).1.truthy then .next (ip + 1) { st with stack := (vmPop st.stack).2 }
    else .next t { st with stack := (vmPop st.stack).2 }
  | .MakeList size =>
    .next (ip + 1) { st with stack := .List (vmPopN size st.stack).1 :: (vmPopN size st.stack).2 }
  | .GetIndex =>
    .next (ip + 1) { st with stack := ((match (vmPop (vmPop st.stack).2).1 with
        | .List l =>
          if usizeOfInt (vmPop st.stack).1.as_int < l.length then
            l.getD (usizeOfInt (vmPop st.stack).1.as_int) .Null
          else .Null
        | _ => .Null) :: (vmPop (vmPop st.stack).2).2) }
  | .SetIndex =>
    .next (ip + 1) { st with stack := ((match (vmPop (vmPop (vmPop st.stack).2).2).1 with
        | .List l =>
          if usizeOfInt (vmPop (vmPop st.stack).2).1.as_int < l.length then
            Value.List (l.set (usizeOfInt (vmPop (vmPop st.stack).2).1.as_int) (vmPop st.stack).1)
          else .Null
        | _ => .Null) :: (vmPop (vmPop (vmPop st.stack).2).2).2) }
  | .ListLen =>
    .next (ip + 1) { st with stack := ((match (vmPop st.stack).1 with
        | .List l => Value.Int l.length
        | _ => Value.Int 0) :: (vmPop st.stack).2) }
  | .Call name argc =>
    if name = "getInput" then
      .next (ip + 1) { st with
        stack := .Str (st.input.headD "").trim :: (vmPopN argc st.stack).2,
        out := st.out ++ "Input: ",
        input := st.input.tail }
    else if name = "report" then
      .next (ip + 1) { st with
        stack := .Null :: (vmPopN argc st.stack).2,
        out := st.out ++
          String.join ((vmPopN argc st.stack).1.map (fun a => Value.display a ++ " ")) ++ "\n" }
    else
      match functions.lookup name with
      | some target => .next target { st with callStack := (ip + 1) :: st.callStack }
      | none => .next (ip + 1) { st with stack := .Null :: (vmPopN argc st.stack).2 }
  | .Return =>
    match st.callStack with
    | ret :: rest => .next ret { st with callStack := rest }
    | [] => .halt st

/-- The dispatch loop of `VM::run`.  The source counts executed
instructions upward against `max_steps = 10_000`; here `fuel` is the
number of steps still allowed (`max_steps - steps`), so the recursion is
structural.  The returned number is the fuel left on exit; `none` models
a host panic. -/
def runAux (code : List IR) (functions : List (String × Nat)) :
    Nat → Nat → VMState → Option (VMState × Nat)
  | 0, _, st => some (st, 0)
  | fuel + 1, ip, st =>
    if ip < code.length then
      match step functions ip st (code.getD ip .Return) with
      | .panic => none
      | .halt st2 => some (st2, fuel)
      | .next ip2 st2 => runAux code functions fuel ip2 st2
    else
      some (st, fuel + 1)

/-- `max_steps` from `VM::run`. -/
def maxSteps : Nat := 10000

/-- Outcome of `VM::run`: final state, number of executed instructions,
and whether the `steps >= max_steps` diagnostic fired (the execution was
truncated by the budget; the source only prints a message, there is no
error value). -/
structure RunResult where
  final : VMState
  steps : Nat
  truncated : Bool

/-- `VM::run` from offset 0 with the fixed instruction budget. -/
def run (code : List IR) (functions : List (String × Nat)) (st : VMState) :
    Option RunResult :=
  (runAux code functions maxSteps 0 st).map
    (fun r => { final := r.1, steps := maxSteps - r.2, truncated := r.2 == 0 })

/-- `FluxError` from src/error.rs: the only two structured error kinds. -/
inductive FluxError where
  | Lex (msg : String)
  | Parse (msg : String)
  deriving DecidableEq, Repr

/-! ### Lexer (src/lexer.rs)

The lexer walks the raw bytes of the source.  It is modelled here over
`List Char`; on ASCII input (everything the grammar itself recognises)
bytes and chars coincide, and `String::from_utf8_lossy` on valid input is
the identity, so the model is exact for well-formed sources.  Precise
diagnostic message texts are abbreviated. -/

/-- Whitespace bytes skipped by `skip_whitespace`. -/
def isWsChar (c : Char) : Bool := c == ' ' || c == '\t' || c == '\n' || c == '\r'

/-- `b'0'..=b'9'`. -/
def isDigitChar (c : Char) : Bool := 48 ≤ c.toNat && c.toNat ≤ 57

/-- `b'a'..=b'z' | b'A'..=b'Z' | b'_'` (identifier start). -/
def isAlphaChar (c : Char) : Bool :=
  (97 ≤ c.toNat && c.toNat ≤ 122) || (65 ≤ c.toNat && c.toNat ≤ 90) || c.toNat == 95

/-- Identifier continuation bytes (start bytes or digits). -/
def isIdentChar (c : Char) : Bool := isAlphaChar c || isDigitChar c

/-- `skip_whitespace` (with `skip_line_comment` inlined): consume
whitespace and `//` line comments; `cur()` past the end reads byte 0.
Every loop iteration consumes at least one char, so the structural
counter never runs out when it starts at the input length. -/
def skipWsF : Nat → List Char → List Char
  | 0, l => l
  | _, [] => []
  | fuel + 1, c :: rest =>
    if isWsChar c then skipWsF fuel rest
    else if c == '/' && rest.headD (Char.ofNat 0) == '/' then
      skipWsF fuel (rest.dropWhile (fun x => !(x == '\n')))
    else c :: rest

/-- `skip_whitespace` on a remaining input. -/
def skipWs (l : List Char) : List Char := skipWsF l.length l

/-- The reserved-word table of the identifier arm of `Lexer::lex`. -/
def keywordTok (w : String) : Tok :=
  if w = "constant" then .Constant
  else if w = "mutable" then .Mutable
  else if w = "assign" then .Assign
  else if w = "yield" then .Yield
  else if w = "course" then .Course
  else if w = "purpose" then .Purpose
  else if w = "when" then .When
  else if w = "then" then .Then
  else if w = "persist" then .Persist
  else if w = "differently" then .Differently
  else if w = "otherwise" then .Otherwise
  else if w = "iterate" then .Iterate
  else if w = "across" then .Across
  else if w = "to" then .To
  else if w = "and" then .And
  else if w = "or" then .Or
  else if w = "not" then .Not
  else if w = "true" then .True
  else if w = "false" then .False
  else if w = "string" then .StringType
  else if w = "number" then .NumberType
  else if w = "float" then .FloatType
  else if w = "boolean" then .BooleanType
  else if w = "void" then .Void
  else .Ident w

/-- Value of a digit run (the successful case of `str::parse`). -/
def digitsToNat (ds : List Char) : Nat :=
  ds.foldl (fun acc c => acc * 10 + (c.toNat - 48)) 0

/-- Largest `i64` value, the bound of the integer-literal parse. -/
def i64Max : Nat := 9223372036854775807

/-- The token-producing loop of `Lexer::lex`, one iteration per recursion
step.  `fuel` only serves to make the recursion structural; every call
consumes at least one input char, so `lex` below always supplies enough.
Arms appear in the source's match order: digits, string literal,
identifier/keyword, operators, the single-dot error, unknown-byte
error. -/
def lexAux : Nat → List Char → List Tok → Except FluxError (List Tok)
  | 0, _, _ => .error (.Lex "lexer fuel exhausted")
  | fuel + 1, input, toks =>
    match input with
    | [] => .ok (toks ++ [.EOF])
    | _ :: _ =>
      match skipWs input with
      | [] => .ok (toks ++ [.EOF])
      | c :: rest =>
        if isDigitChar c then
          let ds := (c :: rest).takeWhile isDigitChar
          let afterInt := (c :: rest).dropWhile isDigitChar
          match afterInt with
          | '.' :: d :: _ =>
            if isDigitChar d then
              let frac := afterInt.tail.takeWhile isDigitChar
              let after := afterInt.tail.dropWhile isDigitChar
              lexAux fuel after
                (toks ++ [.Float { num := (digitsToNat ds * 10 ^ frac.length +
                    digitsToNat frac : Nat), den := (10 ^ frac.length : Nat) }])
            else
              if digitsToNat ds ≤ i64Max then
                lexAux fuel afterInt (toks ++ [.Int (digitsToNat ds)])
              else .error (.Lex ("Invalid integer: " ++ String.mk ds))
          | _ =>
            if digitsToNat ds ≤ i64Max then
              lexAux fuel afterInt (toks ++ [.Int (digitsToNat ds)])
            else .error (.Lex ("Invalid integer: " ++ String.mk ds))
        else if c == '"' then
          let content := rest.takeWhile (fun x => !(x == '"'))
          let after := rest.dropWhile (fun x => !(x == '"'))
          let after := if after.headD (Char.ofNat 0) == '"' then after.tail else after
          lexAux fuel after (toks ++ [.Str (String.mk content)])
        else if isAlphaChar c then
          let word := (c :: rest).takeWhile isIdentChar
          let after := (c :: rest).dropWhile isIdentChar
          lexAux fuel after (toks ++ [keywordTok (String.mk word)])
        else if c == '+' then lexAux fuel rest (toks ++ [.Plus])
        else if c == '-' then lexAux fuel rest (toks ++ [.Minus])
        else if c == '*' then
          match rest with
          | '*' :: rest2 => lexAux fuel rest2 (toks ++ [.Power])
          | _ => lexAux fuel rest (toks ++ [.Star])
        else if c == '/' then lexAux fuel rest (toks ++ [.Slash])
        else if c == '%' then lexAux fuel rest (toks ++ [.Percent])
        else if c == '=' then
          match rest with
          | '=' :: rest2 => lexAux fuel rest2 (toks ++ [.EqEq])
          | _ => lexAux fuel rest (toks ++ [.Eq])
        else if c == '!' then
          match rest with
          | '=' :: rest2 => lexAux fuel rest2 (toks ++ [.BangEq])
          | _ => lexAux fuel rest (toks ++ [.Not])
        else if c == '<' then
          match rest with
          | '=' :: rest2 => lexAux fuel rest2 (toks ++ [.LtEq])
          | _ => lexAux fuel rest (toks ++ [.Lt])
        else if c == '>' then
          match rest with
          | '=' :: rest2 => lexAux fuel rest2 (toks ++ [.GtEq])
          | _ => lexAux fuel rest (toks ++ [.Gt])
        else if c == '[' then lexAux fuel rest (toks ++ [.LBracket])
        else if c == ']' then lexAux fuel rest (toks ++ [.RBracket])
        else if c == '(' then lexAux fuel rest (toks ++ [.LParen])
        else if c == ')' then lexAux fuel rest (toks ++ [.RParen])
        else if c == '{' then lexAux fuel rest (toks ++ [.LBrace])
        else if c == '}' then lexAux fuel rest (toks ++ [.RBrace])
        else if c == ';' then lexAux fuel rest (toks ++ [.Semicolon])
        else if c == ',' then lexAux fuel rest (toks ++ [.Comma])
        else if c == '.' then .error (.Lex "Invalid token: single dot")
        else .error (.Lex ("Unexpected character: " ++ String.mk [c]))

/-- `Lexer::lex` on a whole source text. -/
def lex (source : List Char) : Except FluxError (List Tok) :=
  lexAux (source.length + 1) source []

/-! ### Parser, expression layer (src/parser.rs)

The expression grammar: precedence climbing (`prec`/`bp`), the postfix
indexing layer (`index_expr`), primaries (`atom`), list literals and call
arguments.  Rust's recursion is not structurally decreasing on any
argument, so a fuel counter makes it structural; `parseExpr` supplies
plenty.  Statement parsing is not needed by any property below. -/

/-- The parser state: the materialized token sequence and the cursor. -/
structure PState where
  tokens : List Tok
  pos : Nat

/-- `Parser::cur`: the token at the cursor, `EOF` past the end. -/
def pcur (st : PState) : Tok := st.tokens.getD st.pos .EOF

/-- `Parser::advance` (the consumed token is read with `pcur` before). -/
def padvance (st : PState) : PState :=
  if st.pos < st.tokens.length then { st with pos := st.pos + 1 } else st

/-- Discriminant tag of a token, for `Parser::eat`'s
`std::mem::discriminant` comparison (payloads ignored). -/
def Tok.tag : Tok → Nat
  | .Constant => 0 | .Mutable => 1 | .Assign => 2 | .Yield => 3 | .Course => 4
  | .Purpose => 5 | .When => 6 | .Then => 7 | .Persist => 8 | .Differently => 9
  | .Otherwise => 10 | .Iterate => 11 | .Across => 12 | .To => 13
  | .And => 14 | .Or => 15 | .Not => 16 | .Void => 17
  | .StringType => 18 | .NumberType => 19 | .FloatType => 20 | .BooleanType => 21
  | .Int _ => 22 | .Float _ => 23 | .Str _ => 24 | .Ident _ => 25
  | .True => 26 | .False => 27
  | .Plus => 28 | .Minus => 29 | .Star => 30 | .Slash => 31 | .Percent => 32
  | .Power => 33 | .EqEq => 34 | .BangEq => 35 | .Lt => 36 | .Gt => 37
  | .LtEq => 38 | .GtEq => 39 | .Eq => 40
  | .LParen => 41 | .RParen => 42 | .LBrace => 43 | .RBrace => 44
  | .LBracket => 45 | .RBracket => 46 | .Semicolon => 47 | .Comma => 48
  | .EOF => 49

/-- `Parser::eat`: same discriminant advances, otherwise a syntax error
(message text abbreviated). -/
def peat (st : PState) (expected : Tok) : Except FluxError PState :=
  if (pcur st).tag == expected.tag then .ok (padvance st)
  else .error (.Parse ("Expected token at position " ++ toString st.pos))

/-- `Parser::bp`: the binding-power pairs of the binary operators. -/
def bp : Tok → Option (Nat × Nat)
  | .Or => some (1, 2)
  | .And => some (3, 4)
  | .EqEq | .BangEq => some (5, 6)
  | .Lt | .Gt | .LtEq | .GtEq => some (7, 8)
  | .Plus | .Minus => some (9, 10)
  | .Star | .Slash | .Percent => some (11, 12)
  | .Power => some (13, 14)
  | .To => some (15, 16)
  | _ => none

mutual

/-- `Parser::prec`: parse one `index_expr` then enter the climbing
loop. -/
def pprec : Nat → Nat → PState → Except FluxError (Expr × PState)
  | 0, _, _ => .error (.Parse "parser fuel exhausted")
  | fuel + 1, min, st =>
    match pindexExpr fuel st with
    | .error e => .error e
    | .ok (left, st) => pprecLoop fuel min left st

/-- The `while` loop of `Parser::prec`: as long as the current token has
a binding power at least `min`, consume it and parse its right operand
with the right binding power. -/
def pprecLoop : Nat → Nat → Expr → PState → Except FluxError (Expr × PState)
  | 0, _, _, _ => .error (.Parse "parser fuel exhausted")
  | fuel + 1, min, left, st =>
    match bp (pcur st) with
    | none => .ok (left, st)
    | some (l, r) =>
      if l < min then .ok (left, st)
      else
        let op := pcur st
        let st := padvance st
        match pprec fuel r st with
        | .error e => .error e
        | .ok (right, st) => pprecLoop fuel min (.Binary left op right) st

/-- `Parser::index_expr`: an atom followed by any number of bracketed
index suffixes. -/
def pindexExpr : Nat → PState → Except FluxError (Expr × PState)
  | 0, _ => .error (.Parse "parser fuel exhausted")
  | fuel + 1, st =>
    match patom fuel st with
    | .error e => .error e
    | .ok (e, st) => pindexLoop fuel e st

/-- The suffix loop of `Parser::index_expr`. -/
def pindexLoop : Nat → Expr → PState → Except FluxError (Expr × PState)
  | 0, _, _ => .error (.Parse "parser fuel exhausted")
  | fuel + 1, e, st =>
    match pcur st with
    | .LBracket =>
      let st := padvance st
      match pprec fuel 0 st with
      | .error er => .error er
      | .ok (index, st) =>
        match peat st .RBracket with
        | .error er => .error er
        | .ok st => pindexLoop fuel (.Index e index none) st
    | _ => .ok (e, st)

/-- `Parser::atom`: primary expressions, including parenthesized
expressions, list literals, calls, and the unary minus / `not` arms
(which recurse at binding power 9). -/
def patom : Nat → PState → Except FluxError (Expr × PState)
  | 0, _ => .error (.Parse "parser fuel exhausted")
  | fuel + 1, st =>
    match pcur st with
    | .Int n => .ok (.Int n, padvance st)
    | .Float f => .ok (.Float f, padvance st)
    | .Str s => .ok (.Str s, padvance st)
    | .True => .ok (.Bool true, padvance st)
    | .False => .ok (.Bool false, padvance st)
    | .LBracket =>
      let st := padvance st
      (match pcur st with
      | .RBracket =>
        match peat st .RBracket with
        | .error er => .error er
        | .ok st => .ok (.List [], st)
      | _ =>
        match pprec fuel 0 st with
        | .error er => .error er
        | .ok (e, st) =>
          match pcommaSeq fuel [e] st with
          | .error er => .error er
          | .ok (elements, st) =>
            match peat st .RBracket with
            | .error er => .error er
            | .ok st => .ok (.List elements, st))
    | .Ident n =>
      let st := padvance st
      (match pcur st with
      | .LParen =>
        match peat st .LParen with
        | .error er => .error er
        | .ok st =>
          match pcur st with
          | .RParen =>
            (match peat st .RParen with
            | .error er => .error er
            | .ok st => .ok (.Call n [], st))
          | _ =>
            match pprec fuel 0 st with
            | .error er => .error er
            | .ok (a, st) =>
              match pcommaSeq fuel [a] st with
              | .error er => .error er
              | .ok (args, st) =>
                match peat st .RParen with
                | .error er => .error er
                | .ok st => .ok (.Call n args, st)
      | _ => .ok (.Ident n, st))
    | .LParen =>
      (match peat st .LParen with
      | .error er => .error er
      | .ok st =>
        match pprec fuel 0 st with
        | .error er => .error er
        | .ok (e, st) =>
          match peat st .RParen with
          | .error er => .error er
          | .ok st => .ok (e, st))
    | .Minus =>
      let st := padvance st
      (match pprec fuel 9 st with
      | .error er => .error er
      | .ok (e, st) => .ok (.Unary .Minus e, st))
    | .Not =>
      let st := padvance st
      (match pprec fuel 9 st with
      | .error er => .error er
      | .ok (e, st) => .ok (.Unary .Not e, st))
    | _ => .error (.Parse ("Unexpected token in expression at position " ++ toString st.pos))

/-- The comma-separated-element loop shared verbatim by `Parser::list`
and the call-argument arm of `Parser::atom` (the Rust source duplicates
this loop textually; the logic is identical). -/
def pcommaSeq : Nat → List Expr → PState → Except FluxError (List Expr × PState)
  | 0, _, _ => .error (.Parse "parser fuel exhausted")
  | fuel + 1, acc, st =>
    match pcur st with
    | .Comma =>
      let st := padvance st
      (match pprec fuel 0 st with
      | .error er => .error er
      | .ok (e, st) => pcommaSeq fuel (acc ++ [e]) st)
    | _ => .ok (acc, st)

end

/-- `Parser::expr` (`prec(0)`) from the start of a token sequence, with
ample fuel for every input considered in this development. -/
def parseExpr (tokens : List Tok) : Except FluxError (Expr × PState) :=
  pprec (tokens.length * 4 + 16) 0 { tokens := tokens, pos := 0 }

/-! ### Helper lemmas and statement vocabulary -/

/-- Statement helper (not from the source): is the value an integer? -/
def Value.isInt : Value → HostBool
  | .Int _ => true
  | _ => false

/-- Statement helper (not from the source): is the value numeric? -/
def Value.isNumeric : Value → HostBool
  | .Int _ => true
  | .Float _ => true
  | _ => false

/-- Statement helper (not from the source): is the value a list? -/
def Value.isList : Value → HostBool
  | .List _ => true
  | _ => false

/-- Statement helper (not from the source): length of a list value. -/
def Value.listLength : Value → Nat
  | .List l => l.length
  | _ => 0

/-- The compiled form of `persist true { }` (checked by `rfl` against
`compile` in the C4 theorem). -/
def persistTrueCode : List IR :=
  [.Jump 1, .PushB true, .JumpFalse 4, .Jump 1, .PushNull, .Return]

/-- The compiled form of
`when false then { } differently false then { }` (checked by `rfl`
against `compile` in the C1 theorem).  The `JumpFalse 0` at offset 5 is
the else-if guard whose placeholder target was never patched. -/
def whenElifCode : List IR :=
  [.Jump 1, .PushB false, .JumpFalse 4, .Jump 7, .PushB false, .JumpFalse 0,
   .Jump 7, .PushNull, .Return]

/-- The compiled form of `iterate i across 1 to 5 { report(i); }`
(checked by `rfl` against `compile` in the C6 theorem): initialize, guard
`i <= 5` with a jump-if-false to the loop end, body, increment by 1, jump
back. -/
def iterateCode : List IR :=
  [.Jump 1, .PushI 1, .Store "i", .Load "i", .PushI 5, .Le, .JumpFalse 14,
   .Load "i", .Call "report" 1, .Load "i", .PushI 1, .Add, .Store "i",
   .Jump 3, .PushNull, .Return]

/-- The pop loop yields `n` nulls on an empty stack. -/
theorem vmPopNAux_nil : ∀ n : Nat, vmPopNAux n [] = (List.replicate n .Null, []) := by
  intro n
  induction n with
  | zero => rfl
  | succ n ih => simp [vmPopNAux, vmPop, ih, List.replicate]

/-- The pop loop always yields exactly `n` values. -/
theorem vmPopNAux_fst_length : ∀ (n : Nat) (s : List Value), (vmPopNAux n s).1.length = n := by
  intro n
  induction n with
  | zero => intro s; rfl
  | succ n ih => intro s; cases s <;> simp [vmPopNAux, vmPop, ih]

/-- The pop loop leaves exactly the stack below the popped values. -/
theorem vmPopNAux_snd : ∀ (n : Nat) (s : List Value), (vmPopNAux n s).2 = s.drop n := by
  intro n
  induction n with
  | zero => intro s; rfl
  | succ n ih => intro s; cases s <;> simp [vmPopNAux, vmPop, ih]

/-- `VM::pop_n` on an empty stack yields `n` nulls. -/
theorem vmPopN_nil (n : Nat) : vmPopN n [] = (List.replicate n .Null, []) := by
  simp [vmPopN, vmPopNAux_nil, List.reverse_replicate]

/-- `VM::pop_n` always yields exactly `n` values. -/
theorem vmPopN_fst_length (n : Nat) (s : List Value) : (vmPopN n s).1.length = n := by
  simp [vmPopN, vmPopNAux_fst_length]

/-- `VM::pop_n` leaves the stack below the popped values. -/
theorem vmPopN_snd (n : Nat) (s : List Value) : (vmPopN n s).2 = s.drop n := by
  simp [vmPopN, vmPopNAux_snd]

/-- A list on which a predicate holds everywhere is its own
`takeWhile`. -/
theorem takeWhile_of_all {α : Type} (p : α → Bool) :
    ∀ l : List α, l.all p = true → l.takeWhile p = l := by
  intro l
  induction l with
  | nil => intro _; rfl
  | cons a l ih =>
    intro h
    simp only [List.all_cons, Bool.and_eq_true] at h
    simp [List.takeWhile, h.1, ih h.2]

/-- A list on which a predicate holds everywhere has an empty
`dropWhile`. -/
theorem dropWhile_of_all {α : Type} (p : α → Bool) :
    ∀ l : List α, l.all p = true → l.dropWhile p = [] := by
  intro l
  induction l with
  | nil => intro _; rfl
  | cons a l ih =>
    intro h
    simp only [List.all_cons, Bool.and_eq_true] at h
    simp [List.dropWhile, h.1, ih h.2]

/-! ### The ten properties -/

/-- C10: the operand-stack pop is total: `VM::pop` on the empty stack
yields null and leaves the stack empty, `VM::pop_n` on the empty stack
yields `n` nulls, always yields exactly the requested count, and removes
exactly the popped prefix — so no instruction can underflow the operand
stack. -/
theorem pop_total_no_underflow :
    vmPop [] = (.Null, []) ∧
    (∀ n : Nat, vmPopN n [] = (List.replicate n .Null, [])) ∧
    (∀ (n : Nat) (s : List Value), (vmPopN n s).1.length = n) ∧
    (∀ (n : Nat) (s : List Value), (vmPopN n s).2 = s.drop n) :=
  ⟨rfl, vmPopN_nil, vmPopN_fst_length, vmPopN_snd⟩

/-- C8: a call to a name that is neither `report` nor `getInput` nor in
the function table discards exactly the declared argument count from the
operand stack, pushes null, and continues with the next instruction
(`ip + 1`); it is not an error. -/
theorem unknown_call_discards_and_pushes_null
    (fns : List (String × Nat)) (name : String) (argc ip : Nat) (st : VMState)
    (h1 : name ≠ "getInput") (h2 : name ≠ "report") (h3 : fns.lookup name = none) :
    step fns ip st (.Call name argc) =
      .next (ip + 1) { st with stack := .Null :: st.stack.drop argc } := by
  simp only [step, if_neg h1, if_neg h2, h3, vmPopN_snd]

/-- Witness for C8 at a concrete unknown callee. -/
theorem unknown_call_witness :
    step [] 7 { initState with stack := [.Int 1, .Int 2] } (.Call "undefinedFn" 2) =
      .next 8 { initState with stack := [.Null] } := by
  have h := unknown_call_discards_and_pushes_null [] "undefinedFn" 2 7
    { initState with stack := [.Int 1, .Int 2] } (by decide) (by decide) rfl
  simpa using h

/-- C2 (counterexample): `report(1, 2)` emits the line `"1 2 \n"` — every
argument is followed by one space, so the line carries a trailing space
before the newline; it is not the space-joined `"1 2\n"` the claim
states. -/
theorem report_line_has_trailing_space :
    (run (compile [Stmt.Expr (.Call "report" [.Int 1, .Int 2])]).code
        (compile [Stmt.Expr (.Call "report" [.Int 1, .Int 2])]).functions
        initState).map (fun r => r.final.out) = some "1 2 \n" ∧
    some "1 2 \n" ≠ some ("1 2" ++ "\n") := ⟨rfl, by decide⟩

/-- C2 (amended): a `report` call with declared argument count `n` pops
exactly `n` values, pushes null as its result, and appends exactly one
output line consisting of each argument's display form followed by a
single space (space-separated with a trailing space), then a newline;
the display form is decimal for integers, floats and booleans (an
integral float prints with no point, a non-integral one prints its
decimal expansion), raw text for strings, the literal text `null` for
null, and bracketed comma-separated recursive display for lists. -/
theorem report_call_semantics :
    (∀ (fns : List (String × Nat)) (ip argc : Nat) (st : VMState),
        step fns ip st (.Call "report" argc) =
          .next (ip + 1) { st with
            stack := .Null :: (vmPopN argc st.stack).2,
            out := st.out ++
              String.join ((vmPopN argc st.stack).1.map
                (fun a => Value.display a ++ " ")) ++ "\n" }) ∧
    (∀ (argc : Nat) (s : List Value),
        (vmPopN argc s).1.length = argc ∧ (vmPopN argc s).2 = s.drop argc) ∧
    Value.display .Null = "null" ∧
    (∀ s, Value.display (.Str s) = s) ∧
    (∀ n : Int, Value.display (.Int n) = toString n) ∧
    (∀ f : F64, Value.display (.Float f) = F64.display f) ∧
    Value.display (.Float { num := 25, den := 10 }) = "2.5" ∧
    Value.display (.Float { num := 2, den := 1 }) = "2" ∧
    Value.display (.Float { num := -1, den := 8 }) = "-0.125" ∧
    (∀ b, Value.display (.Bool b) = if b then "true" else "false") ∧
    (∀ vs, Value.display (.List vs) = "[" ++ Value.displayList vs ++ "]") ∧
    Value.displayList [] = "" ∧
    (∀ v, Value.displayList [v] = Value.display v) ∧
    (∀ v w rest, Value.displayList (v :: w :: rest) =
        Value.display v ++ ", " ++ Value.displayList (w :: rest)) := by
  refine ⟨fun fns ip argc st => rfl,
    fun argc s => ⟨vmPopN_fst_length argc s, vmPopN_snd argc s⟩,
    rfl, fun s => rfl, fun n => rfl, fun f => rfl, by decide, by decide, by decide,
    fun b => rfl, fun vs => rfl, rfl,
    fun v => rfl, fun v w rest => rfl⟩

/-- C3 (counterexample): integer division and remainder by zero do not
return an integer — they hit the host's `i64` division-by-zero panic
(modelled as `none`), refuting "returns an integer whenever both operands
are integers, without raising an error". -/
theorem int_div_zero_panics :
    valueDiv (.Int 1) (.Int 0) = none ∧ vmMod (.Int 1) (.Int 0) = none := ⟨rfl, rfl⟩

/-- C3 (amended): for `+ - *` integer/integer stays integer; `/` and `%`
on integers stay integer except that a zero divisor, or the dividend
`i64::MIN` with divisor `-1` (the overflow the host checks
unconditionally), panics instead of returning a value; any float operand
with a numeric partner promotes `+ - * /` to a float result; any
non-numeric operand makes `+ - * /` yield null; `%` yields null unless
both operands are integers; power always returns a float whatever the
operands. -/
theorem arith_type_rules :
    (∀ i j : Int,
        valueAdd (.Int i) (.Int j) = some (.Int (i + j)) ∧
        valueSub (.Int i) (.Int j) = some (.Int (i - j)) ∧
        valueMul (.Int i) (.Int j) = some (.Int (i * j))) ∧
    (∀ i j : Int, j ≠ 0 → ¬(i = -(2 ^ 63) ∧ j = -1) →
        valueDiv (.Int i) (.Int j) = some (.Int (i.tdiv j)) ∧
        vmMod (.Int i) (.Int j) = some (.Int (i.tmod j))) ∧
    (∀ i : Int, valueDiv (.Int i) (.Int 0) = none ∧ vmMod (.Int i) (.Int 0) = none) ∧
    (valueDiv (.Int (-(2 ^ 63))) (.Int (-1)) = none ∧
      vmMod (.Int (-(2 ^ 63))) (.Int (-1)) = none) ∧
    (∀ x y : F64,
        valueAdd (.Float x) (.Float y) = some (.Float (F64.add x y)) ∧
        valueSub (.Float x) (.Float y) = some (.Float (F64.sub x y)) ∧
        valueMul (.Float x) (.Float y) = some (.Float (F64.mul x y)) ∧
        valueDiv (.Float x) (.Float y) = some (.Float (F64.div x y))) ∧
    (∀ (i : Int) (y : F64),
        valueAdd (.Int i) (.Float y) = some (.Float (F64.add (F64.ofInt i) y)) ∧
        valueAdd (.Float y) (.Int i) = some (.Float (F64.add y (F64.ofInt i))) ∧
        valueSub (.Int i) (.Float y) = some (.Float (F64.sub (F64.ofInt i) y)) ∧
        valueSub (.Float y) (.Int i) = some (.Float (F64.sub y (F64.ofInt i))) ∧
        valueMul (.Int i) (.Float y) = some (.Float (F64.mul (F64.ofInt i) y)) ∧
        valueMul (.Float y) (.Int i) = some (.Float (F64.mul y (F64.ofInt i))) ∧
        valueDiv (.Int i) (.Float y) = some (.Float (F64.div (F64.ofInt i) y)) ∧
        valueDiv (.Float y) (.Int i) = some (.Float (F64.div y (F64.ofInt i)))) ∧
    (∀ a b : Value, (a.isNumeric = false ∨ b.isNumeric = false) →
        valueAdd a b = some .Null ∧ valueSub a b = some .Null ∧
        valueMul a b = some .Null ∧ valueDiv a b = some .Null) ∧
    (∀ a b : Value, (a.isInt = false ∨ b.isInt = false) → vmMod a b = some .Null) ∧
    (∀ a b : Value, ∃ x : F64, vmPow a b = .Float x) := by
  refine ⟨fun i j => ⟨rfl, rfl, rfl⟩, fun i j h1 h2 => ⟨?_, ?_⟩,
    fun i => ⟨rfl, rfl⟩, ⟨rfl, rfl⟩, fun x y => ⟨rfl, rfl, rfl, rfl⟩,
    fun i y => ⟨rfl, rfl, rfl, rfl, rfl, rfl, rfl, rfl⟩, ?_, ?_,
    fun a b => ⟨_, rfl⟩⟩
  · have hc : ¬(j = 0 ∨ (i = -(2 ^ 63) ∧ j = -1)) := by tauto
    rw [show valueDiv (.Int i) (.Int j) =
        ((if j = 0 ∨ (i = -(2 ^ 63) ∧ j = -1) then none
          else some (i.tdiv j)).map Value.Int) from rfl, if_neg hc]
    rfl
  · have hc : ¬(j = 0 ∨ (i = -(2 ^ 63) ∧ j = -1)) := by tauto
    rw [show vmMod (.Int i) (.Int j) =
        (if j = 0 ∨ (i = -(2 ^ 63) ∧ j = -1) then none
          else some (Value.Int (i.tmod j))) from rfl, if_neg hc]
  · intro a b h
    cases a <;> cases b <;>
      simp_all [Value.isNumeric, valueAdd, valueSub, valueMul, valueDiv, bin_arith]
  · intro a b h
    cases a <;> cases b <;> simp_all [Value.isInt, vmMod]

/-- Witness for C3 at concrete operands. -/
theorem arith_type_rules_witness :
    valueDiv (.Int 7) (.Int 2) = some (.Int 3) ∧
    vmMod (.Int 7) (.Int 2) = some (.Int 1) ∧
    valueAdd (.Str "x") (.Int 1) = some .Null ∧
    vmMod (.Float { num := 1, den := 1 }) (.Int 1) = some .Null := by
  refine ⟨?_, ?_, ?_, ?_⟩
  · exact (arith_type_rules.2.1 7 2 (by decide) (by decide)).1
  · exact (arith_type_rules.2.1 7 2 (by decide) (by decide)).2
  · exact ((arith_type_rules.2.2.2.2.2.2.1 (.Str "x") (.Int 1)) (Or.inl rfl)).1
  · exact (arith_type_rules.2.2.2.2.2.2.2.1 (.Float { num := 1, den := 1 }) (.Int 1))
      (Or.inl rfl)

/-- One trip around the compiled `persist true { }` loop costs exactly
three executed instructions and restores the state. -/
theorem persistTrue_cycle (f : Nat) :
    runAux persistTrueCode [] (f + 3) 1 initState =
      runAux persistTrueCode [] f 1 initState := rfl

/-- Iterating the three-instruction loop exhausts any multiple of three
of fuel. -/
theorem persistTrue_cycles :
    ∀ k : Nat, runAux persistTrueCode [] (3 * k) 1 initState = some (initState, 0) := by
  intro k
  induction k with
  | zero => rfl
  | succ k ih =>
    have h : 3 * (k + 1) = 3 * k + 3 := by ring
    rw [h, persistTrue_cycle, ih]

/-- The initial jump of the compiled loop costs one instruction. -/
theorem persistTrue_entry (f : Nat) :
    runAux persistTrueCode [] (f + 1) 0 initState =
      runAux persistTrueCode [] f 1 initState := rfl

/-- C4: the compiled deliberately infinite `persist true { }` loop stops
after exactly 10,000 executed instructions with the truncation diagnostic
set (and no error value: the result is an ordinary `some`), instead of
running forever. -/
theorem persist_true_halts_at_budget :
    run (compile [Stmt.Persist (.Bool true) []]).code
        (compile [Stmt.Persist (.Bool true) []]).functions initState =
      some { final := initState, steps := 10000, truncated := true } := by
  have hc : (compile [Stmt.Persist (.Bool true) []]).code = persistTrueCode := rfl
  have hf : (compile [Stmt.Persist (.Bool true) []]).functions = [] := rfl
  rw [hc, hf]
  show (runAux persistTrueCode [] 10000 0 initState).map _ = _
  have h0 := persistTrue_entry 9999
  norm_num at h0
  have h1 : runAux persistTrueCode [] 9999 1 initState = some (initState, 0) := by
    have h := persistTrue_cycles 3333
    norm_num at h
    exact h
  rw [h0, h1]
  rfl

/-- With the else-if condition false, the unpatched guard jumps back to
offset 0, and the program loops in five-instruction cycles that restore
the state. -/
theorem whenElif_cycle (f : Nat) :
    runAux whenElifCode [] (f + 5) 0 initState =
      runAux whenElifCode [] f 0 initState := rfl

/-- Iterating the five-instruction cycle exhausts any multiple of five of
fuel. -/
theorem whenElif_cycles :
    ∀ k : Nat, runAux whenElifCode [] (5 * k) 0 initState = some (initState, 0) := by
  intro k
  induction k with
  | zero => rfl
  | succ k ih =>
    have h : 5 * (k + 1) = 5 * k + 5 := by ring
    rw [h, whenElif_cycle, ih]

/-- C1: refutation at a concrete conditional.  Compiling
`when false then { } differently false then { }` leaves the else-if
branch's jump-if-false with its placeholder target 0 (the offset after
the construct is 7), so a zero-target jump survives compilation; running
the program consequently jumps back to offset 0 whenever the else-if
condition is false and spins until the instruction budget truncates it
after 10,000 steps instead of terminating in a handful of steps. -/
theorem when_elif_guard_never_patched :
    (compile [Stmt.When (.Bool false) [] [((Expr.Bool false), [])] []]).code =
      whenElifCode ∧
    whenElifCode.getD 5 .Return = .JumpFalse 0 ∧
    run (compile [Stmt.When (.Bool false) [] [((Expr.Bool false), [])] []]).code
        (compile [Stmt.When (.Bool false) [] [((Expr.Bool false), [])] []]).functions
        initState =
      some { final := initState, steps := 10000, truncated := true } := by
  refine ⟨rfl, rfl, ?_⟩
  have hc : (compile [Stmt.When (.Bool false) [] [((Expr.Bool false), [])] []]).code =
      whenElifCode := rfl
  have hf : (compile [Stmt.When (.Bool false) [] [((Expr.Bool false), [])] []]).functions =
      [] := rfl
  rw [hc, hf]
  show (runAux whenElifCode [] 10000 0 initState).map _ = _
  have h1 : runAux whenElifCode [] 10000 0 initState = some (initState, 0) := by
    have h := whenElif_cycles 2000
    norm_num at h
    exact h
  rw [h1]
  rfl

/-- C5: the power operator is left-associative: `2 ** 3 ** 2` lexes to
the expected tokens, parses as `(2 ** 3) ** 2`, and the compiled
expression evaluates to the float 64 (not 512); and `1 + 2 * 3` parses as
`1 + (2 * 3)`. -/
theorem power_left_assoc_and_precedence :
    lex "2 ** 3 ** 2".toList = .ok [.Int 2, .Power, .Int 3, .Power, .Int 2, .EOF] ∧
    (parseExpr [.Int 2, .Power, .Int 3, .Power, .Int 2, .EOF]).map (fun r => r.1) =
      .ok (.Binary (.Binary (.Int 2) .Power (.Int 3)) .Power (.Int 2)) ∧
    (run (compile [Stmt.Expr (.Binary (.Binary (.Int 2) .Power (.Int 3)) .Power (.Int 2))]).code
        (compile [Stmt.Expr (.Binary (.Binary (.Int 2) .Power (.Int 3)) .Power (.Int 2))]).functions
        initState).map (fun r => (r.final.stack, r.truncated)) =
      some ([.Null, .Float { num := 64, den := 1 }], false) ∧
    (parseExpr [.Int 1, .Plus, .Int 2, .Star, .Int 3, .EOF]).map (fun r => r.1) =
      .ok (.Binary (.Int 1) .Plus (.Binary (.Int 2) .Star (.Int 3))) :=
  ⟨rfl, rfl, rfl, rfl⟩

/-- C6: `iterate i across 1 to 5 { report(i); }` compiles to the
initialize / guard (`i <= 5`, jump-if-false to loop end) / body /
increment-by-1 / back-jump shape, emits the five lines showing 1 through
5 in order, and leaves the global `i` bound to the integer 6 after the
loop (the proof steps through all 64 executed instructions). -/
theorem iterate_range_five_lines_then_six :
    (compile [Stmt.Iterate "i" (.Binary (.Int 1) .To (.Int 5))
        [.Expr (.Call "report" [.Ident "i"])]]).code = iterateCode ∧
    (run (compile [Stmt.Iterate "i" (.Binary (.Int 1) .To (.Int 5))
        [.Expr (.Call "report" [.Ident "i"])]]).code
        (compile [Stmt.Iterate "i" (.Binary (.Int 1) .To (.Int 5))
        [.Expr (.Call "report" [.Ident "i"])]]).functions
        initState).map (fun r => (r.final.out, r.final.globals "i", r.truncated)) =
      some ("1 \n2 \n3 \n4 \n5 \n", .Int 6, false) := by
  refine ⟨rfl, ?_⟩
  have hc : (compile [Stmt.Iterate "i" (.Binary (.Int 1) .To (.Int 5))
        [.Expr (.Call "report" [.Ident "i"])]]).code = iterateCode := rfl
  have hf : (compile [Stmt.Iterate "i" (.Binary (.Int 1) .To (.Int 5))
        [.Expr (.Call "report" [.Ident "i"])]]).functions = [] := rfl
  rw [hc, hf]
  unfold run maxSteps
  have h0 : runAux iterateCode [] 10000 0 initState = runAux iterateCode [] 9999 1 ⟨[], initState.globals, [], "", []⟩ := rfl
  have h1 : runAux iterateCode [] 9999 1 ⟨[], initState.globals, [], "", []⟩ = runAux iterateCode [] 9998 2 ⟨[Value.Int 1], initState.globals, [], "", []⟩ := rfl
  have h2 : runAux iterateCode [] 9998 2 ⟨[Value.Int 1], initState.globals, [], "", []⟩ = runAux iterateCode [] 9997 3 ⟨[], envSet (initState.globals) "i" (Value.Int 1), [], "", []⟩ := rfl
  have h3 : runAux iterateCode [] 9997 3 ⟨[], envSet (initState.globals) "i" (Value.Int 1), [], "", []⟩ = runAux iterateCode [] 9996 4 ⟨[Value.Int 1], envSet (initState.globals) "i" (Value.Int 1), [], "", []⟩ := rfl
  have h4 : runAux iterateCode [] 9996 4 ⟨[Value.Int 1], envSet (initState.globals) "i" (Value.Int 1), [], "", []⟩ = runAux iterateCode [] 9995 5 ⟨[Value.Int 5, Value.Int 1], envSet (initState.globals) "i" (Value.Int 1), [], "", []⟩ := rfl
  have h5 : runAux iterateCode [] 9995 5 ⟨[Value.Int 5, Value.Int 1], envSet (initState.globals) "i" (Value.Int 1), [], "", []⟩ = runAux iterateCode [] 9994 6 ⟨[Value.Bool true], envSet (initState.globals) "i" (Value.Int 1), [], "", []⟩ := rfl
  have h6 : runAux iterateCode [] 9994 6 ⟨[Value.Bool true], envSet (initState.globals) "i" (Value.Int 1), [], "", []⟩ = runAux iterateCode [] 9993 7 ⟨[], envSet (initState.globals) "i" (Value.Int 1), [], "", []⟩ := rfl
  have h7 : runAux iterateCode [] 9993 7 ⟨[], envSet (initState.globals) "i" (Value.Int 1), [], "", []⟩ = runAux iterateCode [] 9992 8 ⟨[Value.Int 1], envSet (initState.globals) "i" (Value.Int 1), [], "", []⟩ := rfl
  have h8 : runAux iterateCode [] 9992 8 ⟨[Value.Int 1], envSet (initState.globals) "i" (Value.Int 1), [], "", []⟩ = runAux iterateCode [] 9991 9 ⟨[Value.Null], envSet (initState.globals) "i" (Value.Int 1), [], "1 \n", []⟩ := rfl
  have h9 : runAux iterateCode [] 9991 9 ⟨[Value.Null], envSet (initState.globals) "i" (Value.Int 1), [], "1 \n", []⟩ = runAux iterateCode [] 9990 10 ⟨[Value.Int 1, Value.Null], envSet (initState.globals) "i" (Value.Int 1), [], "1 \n", []⟩ := rfl
  have h10 : runAux iterateCode [] 9990 10 ⟨[Value.Int 1, Value.Null], envSet (initState.globals) "i" (Value.Int 1), [], "1 \n", []⟩ = runAux iterateCode [] 9989 11 ⟨[Value.Int 1, Value.Int 1, Value.Null], envSet (initState.globals) "i" (Value.Int 1), [], "1 \n", []⟩ := rfl
  have h11 : runAux iterateCode [] 9989 11 ⟨[Value.Int 1, Value.Int 1, Value.Null], envSet (initState.globals) "i" (Value.Int 1), [], "1 \n", []⟩ = runAux iterateCode [] 9988 12 ⟨[Value.Int 2, Value.Null], envSet (initState.globals) "i" (Value.Int 1), [], "1 \n", []⟩ := rfl
  have h12 : runAux iterateCode [] 9988 12 ⟨[Value.Int 2, Value.Null], envSet (initState.globals) "i" (Value.Int 1), [], "1 \n", []⟩ = runAux iterateCode [] 9987 13 ⟨[Value.Null], envSet (envSet (initState.globals) "i" (Value.Int 1)) "i" (Value.Int 2), [], "1 \n", []⟩ := rfl
  have h13 : runAux iterateCode [] 9987 13 ⟨[Value.Null], envSet (envSet (initState.globals) "i" (Value.Int 1)) "i" (Value.Int 2), [], "1 \n", []⟩ = runAux iterateCode [] 9986 3 ⟨[Value.Null], envSet (envSet (initState.globals) "i" (Value.Int 1)) "i" (Value.Int 2), [], "1 \n", []⟩ := rfl
  have h14 : runAux iterateCode [] 9986 3 ⟨[Value.Null], envSet (envSet (initState.globals) "i" (Value.Int 1)) "i" (Value.Int 2), [], "1 \n", []⟩ = runAux iterateCode [] 9985 4 ⟨[Value.Int 2, Value.Null], envSet (envSet (initState.globals) "i" (Value.Int 1)) "i" (Value.Int 2), [], "1 \n", []⟩ := rfl
  have h15 : runAux iterateCode [] 9985 4 ⟨[Value.Int 2, Value.Null], envSet (envSet (initState.globals) "i" (Value.Int 1)) "i" (Value.Int 2), [], "1 \n", []⟩ = runAux iterateCode [] 9984 5 ⟨[Value.Int 5, Value.Int 2, Value.Null], envSet (envSet (initState.globals) "i" (Value.Int 1)) "i" (Value.Int 2), [], "1 \n", []⟩ := rfl
  have h16 : runAux iterateCode [] 9984 5 ⟨[Value.Int 5, Value.Int 2, Value.Null], envSet (envSet (initState.globals) "i" (Value.Int 1)) "i" (Value.Int 2), [], "1 \n", []⟩ = runAux iterateCode [] 9983 6 ⟨[Value.Bool true, Value.Null], envSet (envSet (initState.globals) "i" (Value.Int 1)) "i" (Value.Int 2), [], "1 \n", []⟩ := rfl
  have h17 : runAux iterateCode [] 9983 6 ⟨[Value.Bool true, Value.Null], envSet (envSet (initState.globals) "i" (Value.Int 1)) "i" (Value.Int 2), [], "1 \n", []⟩ = runAux iterateCode [] 9982 7 ⟨[Value.Null], envSet (envSet (initState.globals) "i" (Value.Int 1)) "i" (Value.Int 2), [], "1 \n", []⟩ := rfl
  have h18 : runAux iterateCode [] 9982 7 ⟨[Value.Null], envSet (envSet (initState.globals) "i" (Value.Int 1)) "i" (Value.Int 2), [], "1 \n", []⟩ = runAux iterateCode [] 9981 8 ⟨[Value.Int 2, Value.Null], envSet (envSet (initState.globals) "i" (Value.Int 1)) "i" (Value.Int 2), [], "1 \n", []⟩ := rfl
  have h19 : runAux iterateCode [] 9981 8 ⟨[Value.Int 2, Value.Null], envSet (envSet (initState.globals) "i" (Value.Int 1)) "i" (Value.Int 2), [], "1 \n", []⟩ = runAux iterateCode [] 9980 9 ⟨[Value.Null, Value.Null], envSet (envSet (initState.globals) "i" (Value.Int 1)) "i" (Value.Int 2), [], "1 \n2 \n", []⟩ := rfl
  have h20 : runAux iterateCode [] 9980 9 ⟨[Value.Null, Value.Null], envSet (envSet (initState.globals) "i" (Value.Int 1)) "i" (Value.Int 2), [], "1 \n2 \n", []⟩ = runAux iterateCode [] 9979 10 ⟨[Value.Int 2, Value.Null, Value.Null], envSet (envSet (initState.globals) "i" (Value.Int 1)) "i" (Value.Int 2), [], "1 \n2 \n", []⟩ := rfl
  have h21 : runAux iterateCode [] 9979 10 ⟨[Value.Int 2, Value.Null, Value.Null], envSet (envSet (initState.globals) "i" (Value.Int 1)) "i" (Value.Int 2), [], "1 \n2 \n", []⟩ = runAux iterateCode [] 9978 11 ⟨[Value.Int 1, Value.Int 2, Value.Null, Value.Null], envSet (envSet (initState.globals) "i" (Value.Int 1)) "i" (Value.Int 2), [], "1 \n2 \n", []⟩ := rfl
  have h22 : runAux iterateCode [] 9978 11 ⟨[Value.Int 1, Value.Int 2, Value.Null, Value.Null], envSet (envSet (initState.globals) "i" (Value.Int 1)) "i" (Value.Int 2), [], "1 \n2 \n", []⟩ = runAux iterateCode [] 9977 12 ⟨[Value.Int 3, Value.Null, Value.Null], envSet (envSet (initState.globals) "i" (Value.Int 1)) "i" (Value.Int 2), [], "1 \n2 \n", []⟩ := rfl
  have h23 : runAux iterateCode [] 9977 12 ⟨[Value.Int 3, Value.Null, Value.Null], envSet (envSet (initState.globals) "i" (Value.Int 1)) "i" (Value.Int 2), [], "1 \n2 \n", []⟩ = runAux iterateCode [] 9976 13 ⟨[Value.Null, Value.Null], envSet (envSet (envSet (initState.globals) "i" (Value.Int 1)) "i" (Value.Int 2)) "i" (Value.Int 3), [], "1 \n2 \n", []⟩ := rfl
  have h24 : runAux iterateCode [] 9976 13 ⟨[Value.Null, Value.Null], envSet (envSet (envSet (initState.globals) "i" (Value.Int 1)) "i" (Value.Int 2)) "i" (Value.Int 3), [], "1 \n2 \n", []⟩ = runAux iterateCode [] 9975 3 ⟨[Value.Null, Value.Null], envSet (envSet (envSet (initState.globals) "i" (Value.Int 1)) "i" (Value.Int 2)) "i" (Value.Int 3), [], "1 \n2 \n", []⟩ := rfl
  have h25 : runAux iterateCode [] 9975 3 ⟨[Value.Null, Value.Null], envSet (envSet (envSet (initState.globals) "i" (Value.Int 1)) "i" (Value.Int 2)) "i" (Value.Int 3), [], "1 \n2 \n", []⟩ = runAux iterateCode [] 9974 4 ⟨[Value.Int 3, Value.Null, Value.Null], envSet (envSet (envSet (initState.globals) "i" (Value.Int 1)) "i" (Value.Int 2)) "i" (Value.Int 3), [], "1 \n2 \n", []⟩ := rfl
  have h26 : runAux iterateCode [] 9974 4 ⟨[Value.Int 3, Value.Null, Value.Null], envSet (envSet (envSet (initState.globals) "i" (Value.Int 1)) "i" (Value.Int 2)) "i" (Value.Int 3), [], "1 \n2 \n", []⟩ = runAux iterateCode [] 9973 5 ⟨[Value.Int 5, Value.Int 3, Value.Null, Value.Null], envSet (envSet (envSet (initState.globals) "i" (Value.Int 1)) "i" (Value.Int 2)) "i" (Value.Int 3), [], "1 \n2 \n", []⟩ := rfl
  have h27 : runAux iterateCode [] 9973 5 ⟨[Value.Int 5, Value.Int 3, Value.Null, Value.Null], envSet (envSet (envSet (initState.globals) "i" (Value.Int 1)) "i" (Value.Int 2)) "i" (Value.Int 3), [], "1 \n2 \n", []⟩ = runAux iterateCode [] 9972 6 ⟨[Value.Bool true, Value.Null, Value.Null], envSet (envSet (envSet (initState.globals) "i" (Value.Int 1)) "i" (Value.Int 2)) "i" (Value.Int 3), [], "1 \n2 \n", []⟩ := rfl
  have h28 : runAux iterateCode [] 9972 6 ⟨[Value.Bool true, Value.Null, Value.Null], envSet (envSet (envSet (initState.globals) "i" (Value.Int 1)) "i" (Value.Int 2)) "i" (Value.Int 3), [], "1 \n2 \n", []⟩ = runAux iterateCode [] 9971 7 ⟨[Value.Null, Value.Null], envSet (envSet (envSet (initState.globals) "i" (Value.Int 1)) "i" (Value.Int 2)) "i" (Value.Int 3), [], "1 \n2 \n", []⟩ := rfl
  have h29 : runAux iterateCode [] 9971 7 ⟨[Value.Null, Value.Null], envSet (envSet (envSet (initState.globals) "i" (Value.Int 1)) "i" (Value.Int 2)) "i" (Value.Int 3), [], "1 \n2 \n", []⟩ = runAux iterateCode [] 9970 8 ⟨[Value.Int 3, Value.Null, Value.Null], envSet (envSet (envSet (initState.globals) "i" (Value.Int 1)) "i" (Value.Int 2)) "i" (Value.Int 3), [], "1 \n2 \n", []⟩ := rfl
  have h30 : runAux iterateCode [] 9970 8 ⟨[Value.Int 3, Value.Null, Value.Null], envSet (envSet (envSet (initState.globals) "i" (Value.Int 1)) "i" (Value.Int 2)) "i" (Value.Int 3), [], "1 \n2 \n", []⟩ = runAux iterateCode [] 9969 9 ⟨[Value.Null, Value.Null, Value.Null], envSet (envSet (envSet (initState.globals) "i" (Value.Int 1)) "i" (Value.Int 2)) "i" (Value.Int 3), [], "1 \n2 \n3 \n", []⟩ := rfl
  have h31 : runAux iterateCode [] 9969 9 ⟨[Value.Null, Value.Null, Value.Null], envSet (envSet (envSet (initState.globals) "i" (Value.Int 1)) "i" (Value.Int 2)) "i" (Value.Int 3), [], "1 \n2 \n3 \n", []⟩ = runAux iterateCode [] 9968 10 ⟨[Value.Int 3, Value.Null, Value.Null, Value.Null], envSet (envSet (envSet (initState.globals) "i" (Value.Int 1)) "i" (Value.Int 2)) "i" (Value.Int 3), [], "1 \n2 \n3 \n", []⟩ := rfl
  have h32 : runAux iterateCode [] 9968 10 ⟨[Value.Int 3, Value.Null, Value.Null, Value.Null], envSet (envSet (envSet (initState.globals) "i" (Value.Int 1)) "i" (Value.Int 2)) "i" (Value.Int 3), [], "1 \n2 \n3 \n", []⟩ = runAux iterateCode [] 9967 11 ⟨[Value.Int 1, Value.Int 3, Value.Null, Value.Null, Value.Null], envSet (envSet (envSet (initState.globals) "i" (Value.Int 1)) "i" (Value.Int 2)) "i" (Value.Int 3), [], "1 \n2 \n3 \n", []⟩ := rfl
  have h33 : runAux iterateCode [] 9967 11 ⟨[Value.Int 1, Value.Int 3, Value.Null, Value.Null, Value.Null], envSet (envSet (envSet (initState.globals) "i" (Value.Int 1)) "i" (Value.Int 2)) "i" (Value.Int 3), [], "1 \n2 \n3 \n", []⟩ = runAux iterateCode [] 9966 12 ⟨[Value.Int 4, Value.Null, Value.Null, Value.Null], envSet (envSet (envSet (initState.globals) "i" (Value.Int 1)) "i" (Value.Int 2)) "i" (Value.Int 3), [], "1 \n2 \n3 \n", []⟩ := rfl
  have h34 : runAux iterateCode [] 9966 12 ⟨[Value.Int 4, Value.Null, Value.Null, Value.Null], envSet (envSet (envSet (initState.globals) "i" (Value.Int 1)) "i" (Value.Int 2)) "i" (Value.Int 3), [], "1 \n2 \n3 \n", []⟩ = runAux iterateCode [] 9965 13 ⟨[Value.Null, Value.Null, Value.Null], envSet (envSet (envSet (envSet (initState.globals) "i" (Value.Int 1)) "i" (Value.Int 2)) "i" (Value.Int 3)) "i" (Value.Int 4), [], "1 \n2 \n3 \n", []⟩ := rfl
  have h35 : runAux iterateCode [] 9965 13 ⟨[Value.Null, Value.Null, Value.Null], envSet (envSet (envSet (envSet (initState.globals) "i" (Value.Int 1)) "i" (Value.Int 2)) "i" (Value.Int 3)) "i" (Value.Int 4), [], "1 \n2 \n3 \n", []⟩ = runAux iterateCode [] 9964 3 ⟨[Value.Null, Value.Null, Value.Null], envSet (envSet (envSet (envSet (initState.globals) "i" (Value.Int 1)) "i" (Value.Int 2)) "i" (Value.Int 3)) "i" (Value.Int 4), [], "1 \n2 \n3 \n", []⟩ := rfl
  have h36 : runAux iterateCode [] 9964 3 ⟨[Value.Null, Value.Null, Value.Null], envSet (envSet (envSet (envSet (initState.globals) "i" (Value.Int 1)) "i" (Value.Int 2)) "i" (Value.Int 3)) "i" (Value.Int 4), [], "1 \n2 \n3 \n", []⟩ = runAux iterateCode [] 9963 4 ⟨[Value.Int 4, Value.Null, Value.Null, Value.Null], envSet (envSet (envSet (envSet (initState.globals) "i" (Value.Int 1)) "i" (Value.Int 2)) "i" (Value.Int 3)) "i" (Value.Int 4), [], "1 \n2 \n3 \n", []⟩ := rfl
  have h37 : runAux iterateCode [] 9963 4 ⟨[Value.Int 4, Value.Null, Value.Null, Value.Null], envSet (envSet (envSet (envSet (initState.globals) "i" (Value.Int 1)) "i" (Value.Int 2)) "i" (Value.Int 3)) "i" (Value.Int 4), [], "1 \n2 \n3 \n", []⟩ = runAux iterateCode [] 9962 5 ⟨[Value.Int 5, Value.Int 4, Value.Null, Value.Null, Value.Null], envSet (envSet (envSet (envSet (initState.globals) "i" (Value.Int 1)) "i" (Value.Int 2)) "i" (Value.Int 3)) "i" (Value.Int 4), [], "1 \n2 \n3 \n", []⟩ := rfl
  have h38 : runAux iterateCode [] 9962 5 ⟨[Value.Int 5, Value.Int 4, Value.Null, Value.Null, Value.Null], envSet (envSet (envSet (envSet (initState.globals) "i" (Value.Int 1)) "i" (Value.Int 2)) "i" (Value.Int 3)) "i" (Value.Int 4), [], "1 \n2 \n3 \n", []⟩ = runAux iterateCode [] 9961 6 ⟨[Value.Bool true, Value.Null, Value.Null, Value.Null], envSet (envSet (envSet (envSet (initState.globals) "i" (Value.Int 1)) "i" (Value.Int 2)) "i" (Value.Int 3)) "i" (Value.Int 4), [], "1 \n2 \n3 \n", []⟩ := rfl
  have h39 : runAux iterateCode [] 9961 6 ⟨[Value.Bool true, Value.Null, Value.Null, Value.Null], envSet (envSet (envSet (envSet (initState.globals) "i" (Value.Int 1)) "i" (Value.Int 2)) "i" (Value.Int 3)) "i" (Value.Int 4), [], "1 \n2 \n3 \n", []⟩ = runAux iterateCode [] 9960 7 ⟨[Value.Null, Value.Null, Value.Null], envSet (envSet (envSet (envSet (initState.globals) "i" (Value.Int 1)) "i" (Value.Int 2)) "i" (Value.Int 3)) "i" (Value.Int 4), [], "1 \n2 \n3 \n", []⟩ := rfl
  have h40 : runAux iterateCode [] 9960 7 ⟨[Value.Null, Value.Null, Value.Null], envSet (envSet (envSet (envSet (initState.globals) "i" (Value.Int 1)) "i" (Value.Int 2)) "i" (Value.Int 3)) "i" (Value.Int 4), [], "1 \n2 \n3 \n", []⟩ = runAux iterateCode [] 9959 8 ⟨[Value.Int 4, Value.Null, Value.Null, Value.Null], envSet (envSet (envSet (envSet (initState.globals) "i" (Value.Int 1)) "i" (Value.Int 2)) "i" (Value.Int 3)) "i" (Value.Int 4), [], "1 \n2 \n3 \n", []⟩ := rfl
  have h41 : runAux iterateCode [] 9959 8 ⟨[Value.Int 4, Value.Null, Value.Null, Value.Null], envSet (envSet (envSet (envSet (initState.globals) "i" (Value.Int 1)) "i" (Value.Int 2)) "i" (Value.Int 3)) "i" (Value.Int 4), [], "1 \n2 \n3 \n", []⟩ = runAux iterateCode [] 9958 9 ⟨[Value.Null, Value.Null, Value.Null, Value.Null], envSet (envSet (envSet (envSet (initState.globals) "i" (Value.Int 1)) "i" (Value.Int 2)) "i" (Value.Int 3)) "i" (Value.Int 4), [], "1 \n2 \n3 \n4 \n", []⟩ := rfl
  have h42 : runAux iterateCode [] 9958 9 ⟨[Value.Null, Value.Null, Value.Null, Value.Null], envSet (envSet (envSet (envSet (initState.globals) "i" (Value.Int 1)) "i" (Value.Int 2)) "i" (Value.Int 3)) "i" (Value.Int 4), [], "1 \n2 \n3 \n4 \n", []⟩ = runAux iterateCode [] 9957 10 ⟨[Value.Int 4, Value.Null, Value.Null, Value.Null, Value.Null], envSet (envSet (envSet (envSet (initState.globals) "i" (Value.Int 1)) "i" (Value.Int 2)) "i" (Value.Int 3)) "i" (Value.Int 4), [], "1 \n2 \n3 \n4 \n", []⟩ := rfl
  have h43 : runAux iterateCode [] 9957 10 ⟨[Value.Int 4, Value.Null, Value.Null, Value.Null, Value.Null], envSet (envSet (envSet (envSet (initState.globals) "i" (Value.Int 1)) "i" (Value.Int 2)) "i" (Value.Int 3)) "i" (Value.Int 4), [], "1 \n2 \n3 \n4 \n", []⟩ = runAux iterateCode [] 9956 11 ⟨[Value.Int 1, Value.Int 4, Value.Null, Value.Null, Value.Null, Value.Null], envSet (envSet (envSet (envSet (initState.globals) "i" (Value.Int 1)) "i" (Value.Int 2)) "i" (Value.Int 3)) "i" (Value.Int 4), [], "1 \n2 \n3 \n4 \n", []⟩ := rfl
  have h44 : runAux iterateCode [] 9956 11 ⟨[Value.Int 1, Value.Int 4, Value.Null, Value.Null, Value.Null, Value.Null], envSet (envSet (envSet (envSet (initState.globals) "i" (Value.Int 1)) "i" (Value.Int 2)) "i" (Value.Int 3)) "i" (Value.Int 4), [], "1 \n2 \n3 \n4 \n", []⟩ = runAux iterateCode [] 9955 12 ⟨[Value.Int 5, Value.Null, Value.Null, Value.Null, Value.Null], envSet (envSet (envSet (envSet (initState.globals) "i" (Value.Int 1)) "i" (Value.Int 2)) "i" (Value.Int 3)) "i" (Value.Int 4), [], "1 \n2 \n3 \n4 \n", []⟩ := rfl
  have h45 : runAux iterateCode [] 9955 12 ⟨[Value.Int 5, Value.Null, Value.Null, Value.Null, Value.Null], envSet (envSet (envSet (envSet (initState.globals) "i" (Value.Int 1)) "i" (Value.Int 2)) "i" (Value.Int 3)) "i" (Value.Int 4), [], "1 \n2 \n3 \n4 \n", []⟩ = runAux iterateCode [] 9954 13 ⟨[Value.Null, Value.Null, Value.Null, Value.Null], envSet (envSet (envSet (envSet (envSet (initState.globals) "i" (Value.Int 1)) "i" (Value.Int 2)) "i" (Value.Int 3)) "i" (Value.Int 4)) "i" (Value.Int 5), [], "1 \n2 \n3 \n4 \n", []⟩ := rfl
  have h46 : runAux iterateCode [] 9954 13 ⟨[Value.Null, Value.Null, Value.Null, Value.Null], envSet (envSet (envSet (envSet (envSet (initState.globals) "i" (Value.Int 1)) "i" (Value.Int 2)) "i" (Value.Int 3)) "i" (Value.Int 4)) "i" (Value.Int 5), [], "1 \n2 \n3 \n4 \n", []⟩ = runAux iterateCode [] 9953 3 ⟨[Value.Null, Value.Null, Value.Null, Value.Null], envSet (envSet (envSet (envSet (envSet (initState.globals) "i" (Value.Int 1)) "i" (Value.Int 2)) "i" (Value.Int 3)) "i" (Value.Int 4)) "i" (Value.Int 5), [], "1 \n2 \n3 \n4 \n", []⟩ := rfl
  have h47 : runAux iterateCode [] 9953 3 ⟨[Value.Null, Value.Null, Value.Null, Value.Null], envSet (envSet (envSet (envSet (envSet (initState.globals) "i" (Value.Int 1)) "i" (Value.Int 2)) "i" (Value.Int 3)) "i" (Value.Int 4)) "i" (Value.Int 5), [], "1 \n2 \n3 \n4 \n", []⟩ = runAux iterateCode [] 9952 4 ⟨[Value.Int 5, Value.Null, Value.Null, Value.Null, Value.Null], envSet (envSet (envSet (envSet (envSet (initState.globals) "i" (Value.Int 1)) "i" (Value.Int 2)) "i" (Value.Int 3)) "i" (Value.Int 4)) "i" (Value.Int 5), [], "1 \n2 \n3 \n4 \n", []⟩ := rfl
  have h48 : runAux iterateCode [] 9952 4 ⟨[Value.Int 5, Value.Null, Value.Null, Value.Null, Value.Null], envSet (envSet (envSet (envSet (envSet (initState.globals) "i" (Value.Int 1)) "i" (Value.Int 2)) "i" (Value.Int 3)) "i" (Value.Int 4)) "i" (Value.Int 5), [], "1 \n2 \n3 \n4 \n", []⟩ = runAux iterateCode [] 9951 5 ⟨[Value.Int 5, Value.Int 5, Value.Null, Value.Null, Value.Null, Value.Null], envSet (envSet (envSet (envSet (envSet (initState.globals) "i" (Value.Int 1)) "i" (Value.Int 2)) "i" (Value.Int 3)) "i" (Value.Int 4)) "i" (Value.Int 5), [], "1 \n2 \n3 \n4 \n", []⟩ := rfl
  have h49 : runAux iterateCode [] 9951 5 ⟨[Value.Int 5, Value.Int 5, Value.Null, Value.Null, Value.Null, Value.Null], envSet (envSet (envSet (envSet (envSet (initState.globals) "i" (Value.Int 1)) "i" (Value.Int 2)) "i" (Value.Int 3)) "i" (Value.Int 4)) "i" (Value.Int 5), [], "1 \n2 \n3 \n4 \n", []⟩ = runAux iterateCode [] 9950 6 ⟨[Value.Bool true, Value.Null, Value.Null, Value.Null, Value.Null], envSet (envSet (envSet (envSet (envSet (initState.globals) "i" (Value.Int 1)) "i" (Value.Int 2)) "i" (Value.Int 3)) "i" (Value.Int 4)) "i" (Value.Int 5), [], "1 \n2 \n3 \n4 \n", []⟩ := rfl
  have h50 : runAux iterateCode [] 9950 6 ⟨[Value.Bool true, Value.Null, Value.Null, Value.Null, Value.Null], envSet (envSet (envSet (envSet (envSet (initState.globals) "i" (Value.Int 1)) "i" (Value.Int 2)) "i" (Value.Int 3)) "i" (Value.Int 4)) "i" (Value.Int 5), [], "1 \n2 \n3 \n4 \n", []⟩ = runAux iterateCode [] 9949 7 ⟨[Value.Null, Value.Null, Value.Null, Value.Null], envSet (envSet (envSet (envSet (envSet (initState.globals) "i" (Value.Int 1)) "i" (Value.Int 2)) "i" (Value.Int 3)) "i" (Value.Int 4)) "i" (Value.Int 5), [], "1 \n2 \n3 \n4 \n", []⟩ := rfl
  have h51 : runAux iterateCode [] 9949 7 ⟨[Value.Null, Value.Null, Value.Null, Value.Null], envSet (envSet (envSet (envSet (envSet (initState.globals) "i" (Value.Int 1)) "i" (Value.Int 2)) "i" (Value.Int 3)) "i" (Value.Int 4)) "i" (Value.Int 5), [], "1 \n2 \n3 \n4 \n", []⟩ = runAux iterateCode [] 9948 8 ⟨[Value.Int 5, Value.Null, Value.Null, Value.Null, Value.Null], envSet (envSet (envSet (envSet (envSet (initState.globals) "i" (Value.Int 1)) "i" (Value.Int 2)) "i" (Value.Int 3)) "i" (Value.Int 4)) "i" (Value.Int 5), [], "1 \n2 \n3 \n4 \n", []⟩ := rfl
  have h52 : runAux iterateCode [] 9948 8 ⟨[Value.Int 5, Value.Null, Value.Null, Value.Null, Value.Null], envSet (envSet (envSet (envSet (envSet (initState.globals) "i" (Value.Int 1)) "i" (Value.Int 2)) "i" (Value.Int 3)) "i" (Value.Int 4)) "i" (Value.Int 5), [], "1 \n2 \n3 \n4 \n", []⟩ = runAux iterateCode [] 9947 9 ⟨[Value.Null, Value.Null, Value.Null, Value.Null, Value.Null], envSet (envSet (envSet (envSet (envSet (initState.globals) "i" (Value.Int 1)) "i" (Value.Int 2)) "i" (Value.Int 3)) "i" (Value.Int 4)) "i" (Value.Int 5), [], "1 \n2 \n3 \n4 \n5 \n", []⟩ := rfl
  have h53 : runAux iterateCode [] 9947 9 ⟨[Value.Null, Value.Null, Value.Null, Value.Null, Value.Null], envSet (envSet (envSet (envSet (envSet (initState.globals) "i" (Value.Int 1)) "i" (Value.Int 2)) "i" (Value.Int 3)) "i" (Value.Int 4)) "i" (Value.Int 5), [], "1 \n2 \n3 \n4 \n5 \n", []⟩ = runAux iterateCode [] 9946 10 ⟨[Value.Int 5, Value.Null, Value.Null, Value.Null, Value.Null, Value.Null], envSet (envSet (envSet (envSet (envSet (initState.globals) "i" (Value.Int 1)) "i" (Value.Int 2)) "i" (Value.Int 3)) "i" (Value.Int 4)) "i" (Value.Int 5), [], "1 \n2 \n3 \n4 \n5 \n", []⟩ := rfl
  have h54 : runAux iterateCode [] 9946 10 ⟨[Value.Int 5, Value.Null, Value.Null, Value.Null, Value.Null, Value.Null], envSet (envSet (envSet (envSet (envSet (initState.globals) "i" (Value.Int 1)) "i" (Value.Int 2)) "i" (Value.Int 3)) "i" (Value.Int 4)) "i" (Value.Int 5), [], "1 \n2 \n3 \n4 \n5 \n", []⟩ = runAux iterateCode [] 9945 11 ⟨[Value.Int 1, Value.Int 5, Value.Null, Value.Null, Value.Null, Value.Null, Value.Null], envSet (envSet (envSet (envSet (envSet (initState.globals) "i" (Value.Int 1)) "i" (Value.Int 2)) "i" (Value.Int 3)) "i" (Value.Int 4)) "i" (Value.Int 5), [], "1 \n2 \n3 \n4 \n5 \n", []⟩ := rfl
  have h55 : runAux iterateCode [] 9945 11 ⟨[Value.Int 1, Value.Int 5, Value.Null, Value.Null, Value.Null, Value.Null, Value.Null], envSet (envSet (envSet (envSet (envSet (initState.globals) "i" (Value.Int 1)) "i" (Value.Int 2)) "i" (Value.Int 3)) "i" (Value.Int 4)) "i" (Value.Int 5), [], "1 \n2 \n3 \n4 \n5 \n", []⟩ = runAux iterateCode [] 9944 12 ⟨[Value.Int 6, Value.Null, Value.Null, Value.Null, Value.Null, Value.Null], envSet (envSet (envSet (envSet (envSet (initState.globals) "i" (Value.Int 1)) "i" (Value.Int 2)) "i" (Value.Int 3)) "i" (Value.Int 4)) "i" (Value.Int 5), [], "1 \n2 \n3 \n4 \n5 \n", []⟩ := rfl
  have h56 : runAux iterateCode [] 9944 12 ⟨[Value.Int 6, Value.Null, Value.Null, Value.Null, Value.Null, Value.Null], envSet (envSet (envSet (envSet (envSet (initState.globals) "i" (Value.Int 1)) "i" (Value.Int 2)) "i" (Value.Int 3)) "i" (Value.Int 4)) "i" (Value.Int 5), [], "1 \n2 \n3 \n4 \n5 \n", []⟩ = runAux iterateCode [] 9943 13 ⟨[Value.Null, Value.Null, Value.Null, Value.Null, Value.Null], envSet (envSet (envSet (envSet (envSet (envSet (initState.globals) "i" (Value.Int 1)) "i" (Value.Int 2)) "i" (Value.Int 3)) "i" (Value.Int 4)) "i" (Value.Int 5)) "i" (Value.Int 6), [], "1 \n2 \n3 \n4 \n5 \n", []⟩ := rfl
  have h57 : runAux iterateCode [] 9943 13 ⟨[Value.Null, Value.Null, Value.Null, Value.Null, Value.Null], envSet (envSet (envSet (envSet (envSet (envSet (initState.globals) "i" (Value.Int 1)) "i" (Value.Int 2)) "i" (Value.Int 3)) "i" (Value.Int 4)) "i" (Value.Int 5)) "i" (Value.Int 6), [], "1 \n2 \n3 \n4 \n5 \n", []⟩ = runAux iterateCode [] 9942 3 ⟨[Value.Null, Value.Null, Value.Null, Value.Null, Value.Null], envSet (envSet (envSet (envSet (envSet (envSet (initState.globals) "i" (Value.Int 1)) "i" (Value.Int 2)) "i" (Value.Int 3)) "i" (Value.Int 4)) "i" (Value.Int 5)) "i" (Value.Int 6), [], "1 \n2 \n3 \n4 \n5 \n", []⟩ := rfl
  have h58 : runAux iterateCode [] 9942 3 ⟨[Value.Null, Value.Null, Value.Null, Value.Null, Value.Null], envSet (envSet (envSet (envSet (envSet (envSet (initState.globals) "i" (Value.Int 1)) "i" (Value.Int 2)) "i" (Value.Int 3)) "i" (Value.Int 4)) "i" (Value.Int 5)) "i" (Value.Int 6), [], "1 \n2 \n3 \n4 \n5 \n", []⟩ = runAux iterateCode [] 9941 4 ⟨[Value.Int 6, Value.Null, Value.Null, Value.Null, Value.Null, Value.Null], envSet (envSet (envSet (envSet (envSet (envSet (initState.globals) "i" (Value.Int 1)) "i" (Value.Int 2)) "i" (Value.Int 3)) "i" (Value.Int 4)) "i" (Value.Int 5)) "i" (Value.Int 6), [], "1 \n2 \n3 \n4 \n5 \n", []⟩ := rfl
  have h59 : runAux iterateCode [] 9941 4 ⟨[Value.Int 6, Value.Null, Value.Null, Value.Null, Value.Null, Value.Null], envSet (envSet (envSet (envSet (envSet (envSet (initState.globals) "i" (Value.Int 1)) "i" (Value.Int 2)) "i" (Value.Int 3)) "i" (Value.Int 4)) "i" (Value.Int 5)) "i" (Value.Int 6), [], "1 \n2 \n3 \n4 \n5 \n", []⟩ = runAux iterateCode [] 9940 5 ⟨[Value.Int 5, Value.Int 6, Value.Null, Value.Null, Value.Null, Value.Null, Value.Null], envSet (envSet (envSet (envSet (envSet (envSet (initState.globals) "i" (Value.Int 1)) "i" (Value.Int 2)) "i" (Value.Int 3)) "i" (Value.Int 4)) "i" (Value.Int 5)) "i" (Value.Int 6), [], "1 \n2 \n3 \n4 \n5 \n", []⟩ := rfl
  have h60 : runAux iterateCode [] 9940 5 ⟨[Value.Int 5, Value.Int 6, Value.Null, Value.Null, Value.Null, Value.Null, Value.Null], envSet (envSet (envSet (envSet (envSet (envSet (initState.globals) "i" (Value.Int 1)) "i" (Value.Int 2)) "i" (Value.Int 3)) "i" (Value.Int 4)) "i" (Value.Int 5)) "i" (Value.Int 6), [], "1 \n2 \n3 \n4 \n5 \n", []⟩ = runAux iterateCode [] 9939 6 ⟨[Value.Bool false, Value.Null, Value.Null, Value.Null, Value.Null, Value.Null], envSet (envSet (envSet (envSet (envSet (envSet (initState.globals) "i" (Value.Int 1)) "i" (Value.Int 2)) "i" (Value.Int 3)) "i" (Value.Int 4)) "i" (Value.Int 5)) "i" (Value.Int 6), [], "1 \n2 \n3 \n4 \n5 \n", []⟩ := rfl
  have h61 : runAux iterateCode [] 9939 6 ⟨[Value.Bool false, Value.Null, Value.Null, Value.Null, Value.Null, Value.Null], envSet (envSet (envSet (envSet (envSet (envSet (initState.globals) "i" (Value.Int 1)) "i" (Value.Int 2)) "i" (Value.Int 3)) "i" (Value.Int 4)) "i" (Value.Int 5)) "i" (Value.Int 6), [], "1 \n2 \n3 \n4 \n5 \n", []⟩ = runAux iterateCode [] 9938 14 ⟨[Value.Null, Value.Null, Value.Null, Value.Null, Value.Null], envSet (envSet (envSet (envSet (envSet (envSet (initState.globals) "i" (Value.Int 1)) "i" (Value.Int 2)) "i" (Value.Int 3)) "i" (Value.Int 4)) "i" (Value.Int 5)) "i" (Value.Int 6), [], "1 \n2 \n3 \n4 \n5 \n", []⟩ := rfl
  have h62 : runAux iterateCode [] 9938 14 ⟨[Value.Null, Value.Null, Value.Null, Value.Null, Value.Null], envSet (envSet (envSet (envSet (envSet (envSet (initState.globals) "i" (Value.Int 1)) "i" (Value.Int 2)) "i" (Value.Int 3)) "i" (Value.Int 4)) "i" (Value.Int 5)) "i" (Value.Int 6), [], "1 \n2 \n3 \n4 \n5 \n", []⟩ = runAux iterateCode [] 9937 15 ⟨[Value.Null, Value.Null, Value.Null, Value.Null, Value.Null, Value.Null], envSet (envSet (envSet (envSet (envSet (envSet (initState.globals) "i" (Value.Int 1)) "i" (Value.Int 2)) "i" (Value.Int 3)) "i" (Value.Int 4)) "i" (Value.Int 5)) "i" (Value.Int 6), [], "1 \n2 \n3 \n4 \n5 \n", []⟩ := rfl
  have h63 : runAux iterateCode [] 9937 15 ⟨[Value.Null, Value.Null, Value.Null, Value.Null, Value.Null, Value.Null], envSet (envSet (envSet (envSet (envSet (envSet (initState.globals) "i" (Value.Int 1)) "i" (Value.Int 2)) "i" (Value.Int 3)) "i" (Value.Int 4)) "i" (Value.Int 5)) "i" (Value.Int 6), [], "1 \n2 \n3 \n4 \n5 \n", []⟩ = some (⟨[Value.Null, Value.Null, Value.Null, Value.Null, Value.Null, Value.Null], envSet (envSet (envSet (envSet (envSet (envSet (initState.globals) "i" (Value.Int 1)) "i" (Value.Int 2)) "i" (Value.Int 3)) "i" (Value.Int 4)) "i" (Value.Int 5)) "i" (Value.Int 6), [], "1 \n2 \n3 \n4 \n5 \n", []⟩, 9936) := rfl
  rw [h0, h1, h2, h3, h4, h5, h6, h7, h8, h9, h10, h11, h12, h13, h14, h15, h16, h17, h18, h19, h20, h21, h22, h23, h24, h25, h26, h27, h28, h29, h30, h31, h32, h33, h34, h35, h36, h37, h38, h39, h40, h41, h42, h43, h44, h45, h46, h47, h48, h49, h50, h51, h52, h53, h54, h55, h56, h57, h58, h59, h60, h61, h62, h63]
  rfl

/-- C9: when the lexer reaches a `"` and no closing quote follows before
the end of input, lexing does not fail: it produces a string token whose
content is everything from just after the opening quote to the end of the
input, then stops at end of input with the `EOF` marker, whatever tokens
were already produced (two units of the structural counter suffice from
this point, and `lex` always supplies more). -/
theorem unterminated_string_tolerated (fuel : Nat) (body : List Char) (toks : List Tok)
    (h : body.all (fun c => !(c == '"')) = true) :
    lexAux (fuel + 2) ('"' :: body) toks = .ok (toks ++ [.Str (String.mk body), .EOF]) := by
  have htake : body.takeWhile (fun x => !(x == '"')) = body :=
    takeWhile_of_all (fun x => !(x == '"')) body h
  have hdrop : body.dropWhile (fun x => !(x == '"')) = [] :=
    dropWhile_of_all (fun x => !(x == '"')) body h
  have estep : lexAux (fuel + 2) ('"' :: body) toks =
      lexAux (fuel + 1)
        (if (body.dropWhile (fun x => !(x == '"'))).headD (Char.ofNat 0) == '"' then
          (body.dropWhile (fun x => !(x == '"'))).tail
        else body.dropWhile (fun x => !(x == '"')))
        (toks ++ [.Str (String.mk (body.takeWhile (fun x => !(x == '"'))))]) := rfl
  rw [estep, htake, hdrop]
  have hif : (if ([] : List Char).headD (Char.ofNat 0) == '"' then
      ([] : List Char).tail else ([] : List Char)) = [] := rfl
  rw [hif]
  have hfin : lexAux (fuel + 1) [] (toks ++ [.Str (String.mk body)]) =
      .ok ((toks ++ [.Str (String.mk body)]) ++ [.EOF]) := rfl
  rw [hfin]
  simp

/-- Witness for C9 at the concrete source text `"abc` (an opening quote
followed by three chars and end of input). -/
theorem unterminated_string_witness :
    lexAux 2 ('"' :: ['a', 'b', 'c']) [] = .ok [.Str "abc", .EOF] := by
  have h := unterminated_string_tolerated 0 ['a', 'b', 'c'] [] (by decide)
  simpa using h

/-- C7: compiling and running a list-index assignment `a[i] = v;` whose
target is not currently a list, or whose (i64-cast) index is negative or
at least the list's length, rebinds the global to null: the stored value
is lost, not left unchanged.  The index and the stored list length are
restricted to the `i64`/`usize` ranges the Rust code guarantees. -/
theorem setindex_out_of_range_rebinds_null
    (nm : String) (i vn : Int) (g : String → Value)
    (hlo : -(2 ^ 63) ≤ i) (hhi : i < 2 ^ 63)
    (hlen : ((g nm).listLength : Int) < 2 ^ 63)
    (hbad : (g nm).isList = false ∨ i < 0 ∨ ((g nm).listLength : Int) ≤ i) :
    (run (compile [Stmt.Assign nm (.Index (.Ident nm) (.Int i) (some (.Int vn)))]).code
        (compile [Stmt.Assign nm (.Index (.Ident nm) (.Int i) (some (.Int vn)))]).functions
        { initState with globals := g }).map (fun r => (r.final.globals nm, r.truncated)) =
      some (.Null, false) := by
  have hc : (compile [Stmt.Assign nm (.Index (.Ident nm) (.Int i) (some (.Int vn)))]).code =
      [.Jump 1, .Load nm, .PushI i, .PushI vn, .SetIndex, .Store nm, .PushNull, .Return] := rfl
  have hf : (compile [Stmt.Assign nm (.Index (.Ident nm) (.Int i) (some (.Int vn)))]).functions =
      [] := rfl
  rw [hc, hf]
  unfold run maxSteps
  have e1 : runAux
      [.Jump 1, .Load nm, .PushI i, .PushI vn, .SetIndex, .Store nm, .PushNull, .Return]
      [] 10000 0 { initState with globals := g } =
      runAux [.Jump 1, .Load nm, .PushI i, .PushI vn, .SetIndex, .Store nm, .PushNull, .Return]
      [] 9996 4 ⟨[.Int vn, .Int i, g nm], g, [], "", []⟩ := rfl
  rw [e1]
  cases hV : g nm with
  | Int n =>
    have e2 : runAux
        [.Jump 1, .Load nm, .PushI i, .PushI vn, .SetIndex, .Store nm, .PushNull, .Return]
        [] 9996 4 ⟨[.Int vn, .Int i, .Int n], g, [], "", []⟩ =
        some (⟨[.Null], envSet g nm .Null, [], "", []⟩, 9992) := rfl
    rw [e2]
    simp [envSet]
  | Float f =>
    have e2 : runAux
        [.Jump 1, .Load nm, .PushI i, .PushI vn, .SetIndex, .Store nm, .PushNull, .Return]
        [] 9996 4 ⟨[.Int vn, .Int i, .Float f], g, [], "", []⟩ =
        some (⟨[.Null], envSet g nm .Null, [], "", []⟩, 9992) := rfl
    rw [e2]
    simp [envSet]
  | Str s =>
    have e2 : runAux
        [.Jump 1, .Load nm, .PushI i, .PushI vn, .SetIndex, .Store nm, .PushNull, .Return]
        [] 9996 4 ⟨[.Int vn, .Int i, .Str s], g, [], "", []⟩ =
        some (⟨[.Null], envSet g nm .Null, [], "", []⟩, 9992) := rfl
    rw [e2]
    simp [envSet]
  | Bool b =>
    have e2 : runAux
        [.Jump 1, .Load nm, .PushI i, .PushI vn, .SetIndex, .Store nm, .PushNull, .Return]
        [] 9996 4 ⟨[.Int vn, .Int i, .Bool b], g, [], "", []⟩ =
        some (⟨[.Null], envSet g nm .Null, [], "", []⟩, 9992) := rfl
    rw [e2]
    simp [envSet]
  | Null =>
    have e2 : runAux
        [.Jump 1, .Load nm, .PushI i, .PushI vn, .SetIndex, .Store nm, .PushNull, .Return]
        [] 9996 4 ⟨[.Int vn, .Int i, .Null], g, [], "", []⟩ =
        some (⟨[.Null], envSet g nm .Null, [], "", []⟩, 9992) := rfl
    rw [e2]
    simp [envSet]
  | List l =>
    rw [hV] at hlen hbad
    simp only [Value.isList, Value.listLength] at hlen hbad
    have hni : ¬ (usizeOfInt i < l.length) := by
      rcases hbad with hb | hb | hb
      · exact absurd hb (by simp [Value.isList])
      · simp only [usizeOfInt]
        omega
      · simp only [usizeOfInt]
        omega
    have e2 : runAux
        [.Jump 1, .Load nm, .PushI i, .PushI vn, .SetIndex, .Store nm, .PushNull, .Return]
        [] 9996 4 ⟨[.Int vn, .Int i, .List l], g, [], "", []⟩ =
        some (⟨[.Null],
               envSet g nm (if usizeOfInt i < l.length then
                  Value.List (l.set (usizeOfInt i) (.Int vn)) else .Null),
               [], "", []⟩, 9992) := rfl
    rw [e2]
    simp [envSet, if_neg hni]

/-- Witness for C7: `a` holds the list `[1, 2]` and the statement
`a[-1] = 9;` rebinds `a` to null (the negative index wraps to a huge
unsigned index). -/
theorem setindex_rebinds_witness :
    (run (compile [Stmt.Assign "a"
          (.Index (.Ident "a") (.Int (-1)) (some (.Int 9)))]).code
        (compile [Stmt.Assign "a"
          (.Index (.Ident "a") (.Int (-1)) (some (.Int 9)))]).functions
        { initState with
            globals := envSet initState.globals "a" (.List [.Int 1, .Int 2]) }).map
      (fun r => (r.final.globals "a", r.truncated)) = some (.Null, false) := by
  have h := setindex_out_of_range_rebinds_null "a" (-1) 9
      (envSet initState.globals "a" (.List [.Int 1, .Int 2]))
      (by norm_num) (by norm_num)
      (by simp [envSet, Value.listLength])
      (Or.inr (Or.inl (by norm_num)))
  exact h

end Flux
